import Mathlib

set_option maxRecDepth 100000

/-!
Verification of the line-to-event decoding engine of the go-irc-twitch
repository. The repository contains two historical implementations of the
parsing engine:

* `V1` — the implementation in `message.go` (`parseMessage`, `parseTags`,
  `parseMiddle`, the `parseXXXMessage` methods on `message`);
* `V2` — the implementation in the unnamed source file (`ParseMessage`,
  `messageTypeMap`, `parseWhisperMessage`, …, `parseEmotes`, `parseBadges`).

Go strings are modelled as Lean `String`s (sequences of Unicode codepoints);
byte-level slicing done by the Go code on ASCII-delimited positions is
modelled on codepoints, which coincides with the byte semantics whenever the
characters at the cut positions are single-byte (true of all the ASCII
protocol markers involved).  Go `map[string]T` values are modelled as
association lists with unique keys, kept unique by an insert that removes any
previous binding, so that lookup and iteration agree with Go map semantics.
Go run-time panics (out-of-range indexing and slicing) are modelled by
`Option`: a function that can panic returns `none` exactly on the inputs on
which the Go code aborts.

All string operations are implemented by structural recursion over the
codepoint lists so that every definition evaluates inside the kernel.
-/

/-! ## Models of the Go `strings` / `strconv` functions used by the code -/

/-- If `sep` is a prefix of `l`, the remainder after it; otherwise `none`. -/
def stripPre? : List Char → List Char → Option (List Char)
  | [], l => some l
  | _ :: _, [] => none
  | c :: cs, d :: ds => if c = d then stripPre? cs ds else none

/-- Is `p` a prefix of `l`? -/
def isPreOf (p l : List Char) : Bool := (stripPre? p l).isSome

/-- Left-to-right, non-overlapping split of `l` at occurrences of `sep`
(the semantics of Go `strings.Split` for non-empty `sep`), driven by a fuel
counter so that the recursion is structural and kernel-evaluable; fuel
`l.length` always suffices because every step consumes at least one
character when `sep` is non-empty. -/
def splitCharsAux (sep : List Char) : Nat → List Char → List (List Char)
  | 0, l => [l]
  | _ + 1, [] => [[]]
  | fuel + 1, c :: rest =>
    match stripPre? sep (c :: rest) with
    | some rest' => [] :: splitCharsAux sep fuel rest'
    | none =>
      match splitCharsAux sep fuel rest with
      | [] => [[c]]
      | p :: ps => (c :: p) :: ps

def splitChars (sep l : List Char) : List (List Char) :=
  splitCharsAux sep l.length l

/-- Go `strings.Split(s, sep)` for non-empty `sep`. -/
def goSplit (s sep : String) : List String :=
  (splitChars sep.data s.data).map String.mk

/-- Go `strings.Join(elems, sep)`. -/
def goJoin (elems : List String) (sep : String) : String :=
  match elems with
  | [] => ""
  | [x] => x
  | x :: xs => x ++ sep ++ goJoin xs sep

/-- Go `strings.SplitN(s, sep, n)` for `n ≥ 1`: at most `n` pieces, the last
piece being the unsplit remainder. -/
def goSplitN (s sep : String) (n : Nat) : List String :=
  let parts := goSplit s sep
  if parts.length ≤ n then parts
  else parts.take (n - 1) ++ [goJoin (parts.drop (n - 1)) sep]

/-- Go `strings.Contains(s, sub)`. -/
def goContains (s sub : String) : Bool :=
  sub.isEmpty || (goSplit s sub).length != 1

/-- Go `strings.Count(s, sub)` for non-empty `sub`: the number of
non-overlapping occurrences. -/
def goCount (s sub : String) : Nat :=
  (goSplit s sub).length - 1

/-- Go `strings.HasPrefix(s, pre)`. -/
def goHasPre (s pre : String) : Bool := isPreOf pre.data s.data

/-- Go `strings.HasSuffix(s, suf)`. -/
def goHasSuf (s suf : String) : Bool := isPreOf suf.data.reverse s.data.reverse

/-- Go `strings.TrimPrefix(s, pre)`. -/
def goTrimPre (s pre : String) : String :=
  match stripPre? pre.data s.data with
  | some rest => String.mk rest
  | none => s

/-- Go `strings.ReplaceAll(s, old, new)` for non-empty `old`. -/
def goReplaceAll (s old new : String) : String :=
  goJoin (goSplit s old) new

/-- Go `strings.Replace(s, old, new, 1)`: replace the first occurrence only. -/
def goReplaceFirst (s old new : String) : String :=
  match goSplit s old with
  | [] => s
  | [_] => s
  | p :: ps => p ++ new ++ goJoin ps old

/-- Go `strings.ToLower(s)` (only ever applied to ASCII data here). -/
def goToLower (s : String) : String := String.mk (s.data.map Char.toLower)

/-- Go `strings.TrimSpace(s)`. -/
def goTrimSpace (s : String) : String :=
  String.mk (((s.data.dropWhile Char.isWhitespace).reverse.dropWhile
    Char.isWhitespace).reverse)

/-- Go `strings.Trim(s, cutset)` with the cutset given as a character list. -/
def goTrim (s : String) (cutset : List Char) : String :=
  String.mk (((s.data.dropWhile (cutset.contains ·)).reverse.dropWhile
    (cutset.contains ·)).reverse)

/-- Decimal digits to a number, `none` if empty or a non-digit occurs. -/
def decDigits? (ds : List Char) : Option Nat :=
  if ds.isEmpty then none
  else if ds.all Char.isDigit then
    some (ds.foldl (fun n c => n * 10 + (c.toNat - 48)) 0)
  else none

/-- Go `strconv.Atoi(s)` with the error discarded, as every call site in the
repository does (`n, _ := strconv.Atoi(s)`): the parsed integer on success
and `0` on a syntax error.  (64-bit range clamping is not modelled; every
value the claims touch is small.) -/
def goAtoi (s : String) : Int :=
  match s.data with
  | '-' :: rest =>
    match decDigits? rest with
    | some n => -(n : Int)
    | none => 0
  | '+' :: rest =>
    match decDigits? rest with
    | some n => (n : Int)
    | none => 0
  | ds =>
    match decDigits? ds with
    | some n => (n : Int)
    | none => 0

/-- Go slice expression `runes[first:last]` on a `[]rune`: defined (`some`)
exactly when `0 ≤ first ≤ last ≤ len(runes)`; Go panics outside that range,
modelled by `none`. -/
def goRuneSlice (runes : List Char) (first last : Int) : Option String :=
  if 0 ≤ first ∧ first ≤ last ∧ last ≤ (runes.length : Int) then
    some (String.mk ((runes.drop first.toNat).take (last - first).toNat))
  else none

/-! ## Go map model: association lists with unique keys -/

/-- Model of Go `map[string]α`: an association list whose insert removes any
previous binding for the key, mirroring Go map overwrite and keeping keys
unique. -/
def mapInsert {α : Type} (m : List (String × α)) (k : String) (v : α) :
    List (String × α) :=
  m.filter (fun p => p.1 != k) ++ [(k, v)]

/-- Go map read `m[k]` with the `ok` flag: `none` when absent. -/
def mapLookup {α : Type} (m : List (String × α)) (k : String) : Option α :=
  (m.find? (fun p => p.1 == k)).map Prod.snd

/-- Go map read `m[k]` without the `ok` flag: the zero value `dflt` when
the key is absent. -/
def mapGetD {α : Type} (m : List (String × α)) (k : String) (dflt : α) : α :=
  (mapLookup m k).getD dflt

/-! ## Shared data model -/

/-- `MessageType` — the closed enumeration of message kinds.  `message.go`
declares the constants `UNSET … NOTICE`; the unnamed file additionally
declares `JOIN … PONG`.  One shared enumeration serves both. -/
inductive MessageType where
  | UNSET
  | WHISPER
  | PRIVMSG
  | CLEARCHAT
  | ROOMSTATE
  | USERNOTICE
  | USERSTATE
  | NOTICE
  | JOIN
  | PART
  | RECONNECT
  | NAMES
  | PING
  | PONG
deriving DecidableEq, Repr

/-- `Emote` — `{Name, ID, Count}`, identical in both implementations. -/
structure Emote where
  Name : String
  ID : String
  Count : Int
deriving DecidableEq, Repr

/-- `User` — `{ID, Name, DisplayName, Color, Badges}`; `Badges` is a Go
`map[string]int`. -/
structure User where
  ID : String := ""
  Name : String := ""
  DisplayName : String := ""
  Color : String := ""
  Badges : List (String × Int) := []
deriving DecidableEq, Repr

example : goSplitN "a/b/c" "/" 2 = ["a", "b/c"] := by decide
example : goSplitN "subscriber" "/" 2 = ["subscriber"] := by decide
example : goSplit "" ";" = [""] := by decide
example : goSplit "a;;b" ";" = ["a", "", "b"] := by decide
example : goAtoi "-12" = -12 := by decide
example : goAtoi "x2" = 0 := by decide
example : goCount "0-4,6-10" "," = 1 := by decide
example : goContains "msg-param-months" "msg-param" = true := by decide
example : goReplaceAll "a\\sb\\sc" "\\s" " " = "a b c" := by decide
example : goTrimPre "#pajlada" "#" = "pajlada" := by decide
example : goHasPre "\u0001ACTION hi\u0001" "\u0001ACTION" = true := by decide
example : goHasSuf "\u0001ACTION hi\u0001" "\u0001" = true := by decide
example : goRuneSlice "Kappa Keepo".data 6 11 = some "Keepo" := by decide
example : goRuneSlice "abc".data 0 4 = none := by decide

/-! ## V2 — the implementation of the unnamed source file (`ParseMessage`) -/

namespace V2

/-- The source prefix of a framed line; the decoders only read `Username`. -/
structure ircMessageSource where
  Username : String := ""
deriving DecidableEq, Repr

/-- `ircMessage` — the framed line consumed by every `V2` decoder.  The
structure declaration itself is not among the provided source files; its
fields are exactly those the decoders read (`Raw`, `Source.Username`,
`Command`, `Params`, `Tags`). -/
structure ircMessage where
  Raw : String := ""
  Source : ircMessageSource := {}
  Command : String := ""
  Params : List String := []
  Tags : List (String × String) := []
deriving DecidableEq, Repr

/-- `parseMessageType` — the `Type` column of the command dispatch map
`messageTypeMap`, `UNSET` for a command with no entry.  (In Go, kind and
decoder live in one map; the kind column is split out here to break the
definitional cycle between the map and the decoders, and the lemma
`messageTypeMap_fst` below records that the two agree.) -/
def parseMessageType : String → MessageType
  | "WHISPER" => .WHISPER
  | "PRIVMSG" => .PRIVMSG
  | "CLEARCHAT" => .CLEARCHAT
  | "ROOMSTATE" => .ROOMSTATE
  | "USERNOTICE" => .USERNOTICE
  | "USERSTATE" => .USERSTATE
  | "NOTICE" => .NOTICE
  | "JOIN" => .JOIN
  | "PART" => .PART
  | "RECONNECT" => .RECONNECT
  | "353" => .NAMES
  | "PING" => .PING
  | "PONG" => .PONG
  | _ => .UNSET

/-- `parseBadges` loop body: Go indexes `pair[1]` without checking that the
`/` was present, so a badge with no `/` makes the whole decode panic
(`none`). -/
def parseBadgesLoop : List String → List (String × Int) →
    Option (List (String × Int))
  | [], acc => some acc
  | badge :: rest, acc =>
    match goSplitN badge "/" 2 with
    | k :: v :: _ => parseBadgesLoop rest (mapInsert acc k (goAtoi v))
    | _ => none

/-- `parseBadges` (unnamed file, lines 124–133). -/
def parseBadges (rawBadges : String) : Option (List (String × Int)) :=
  parseBadgesLoop (goSplit rawBadges ",") []

/-- `parseUser` (unnamed file, lines 102–122). -/
def parseUser (message : ircMessage) : Option User := do
  let badges ←
    if mapGetD message.Tags "badges" "" ≠ "" then
      parseBadges (mapGetD message.Tags "badges" "")
    else pure []
  let displayName := mapGetD message.Tags "display-name" ""
  let name :=
    if message.Source.Username = "" ∧ displayName ≠ "" then
      goReplaceFirst (goToLower displayName) " " ""
    else message.Source.Username
  pure { ID := mapGetD message.Tags "user-id" "",
         Name := name,
         DisplayName := displayName,
         Color := mapGetD message.Tags "color" "",
         Badges := badges }

/-- One group of the `emotes` tag value (the loop body of `parseEmotes`,
unnamed file lines 438–453): Go indexes `split[1]` and `pair[1]` without
length checks and slices `runes[firstIndex : lastIndex+1]`, panicking
(`none`) on a group with no `:`, a first range with no `-`, or indices
outside the rune sequence. -/
def parseEmoteGroup (runes : List Char) (v : String) : Option Emote :=
  match goSplitN v ":" 2 with
  | id :: positions :: _ =>
    (match goSplitN ((goSplitN positions "," 2).headD "") "-" 2 with
    | first :: last :: _ => do
      let name ← goRuneSlice runes (goAtoi first) (goAtoi last + 1)
      pure { Name := name, ID := id,
             Count := (goCount positions "," : Int) + 1 }
    | _ => none)
  | _ => none

def parseEmotesLoop (runes : List Char) : List String → Option (List Emote)
  | [] => some []
  | v :: rest => do
    let e ← parseEmoteGroup runes v
    let es ← parseEmotesLoop runes rest
    pure (e :: es)

/-- `parseEmotes` (unnamed file, lines 429–456). -/
def parseEmotes (rawEmotes message : String) : Option (List Emote) :=
  if rawEmotes = "" then some []
  else parseEmotesLoop message.data (goSplit rawEmotes "/")

/-- `parseTime` (unnamed file, lines 420–427): `time.Unix(0, t*1e6)`
modelled as the nanosecond count `t * 1000000`; empty or non-numeric input
degrades to the zero time. -/
def parseTime (rawTime : String) : Int :=
  if rawTime = "" then 0 else goAtoi rawTime * 1000000

/-- The ACTION-marker handling of `parsePrivateMessage` (and of the `V1`
PRIVMSG/WHISPER decoders): Go tests `HasPrefix "\u0001ACTION"` and
`HasSuffix "\u0001"` and then slices `text[8 : len(text)-1]` (byte indices;
the marker is ASCII, so codepoint offsets agree with byte offsets whenever
the character following the marker is single-byte).  The slice panics
(`none`) exactly when the length is 8, i.e. on the body
`"\u0001ACTION\u0001"`. -/
def actionStrip (text : String) : Option (String × Bool) :=
  if goHasPre text "\u0001ACTION" && goHasSuf text "\u0001" then
    if 9 ≤ text.data.length then
      some (String.mk ((text.data.drop 8).dropLast), true)
    else none
  else some (text, false)

/-- `WhisperMessage`. -/
structure WhisperMessage where
  User : User
  Raw : String := ""
  Type' : MessageType := .UNSET
  RawType : String := ""
  Tags : List (String × String) := []
  MessageID : String := ""
  ThreadID : String := ""
  Message : String := ""
  Target : String := ""
  Emotes : List Emote := []
  Action : Bool := false
deriving DecidableEq, Repr

/-- `PrivateMessage`. -/
structure PrivateMessage where
  User : User
  Raw : String := ""
  Type' : MessageType := .UNSET
  RawType : String := ""
  Tags : List (String × String) := []
  RoomID : String := ""
  ID : String := ""
  Time : Int := 0
  Message : String := ""
  Channel : String := ""
  Emotes : List Emote := []
  Bits : Int := 0
  Action : Bool := false
deriving DecidableEq, Repr

/-- `ClearChatMessage`. -/
structure ClearChatMessage where
  Raw : String := ""
  Type' : MessageType := .UNSET
  RawType : String := ""
  Tags : List (String × String) := []
  RoomID : String := ""
  Time : Int := 0
  TargetUserID : String := ""
  Channel : String := ""
  BanDuration : Int := 0
  TargetUsername : String := ""
deriving DecidableEq, Repr

/-- `RoomStateMessage`. -/
structure RoomStateMessage where
  Raw : String := ""
  Type' : MessageType := .UNSET
  RawType : String := ""
  Tags : List (String × String) := []
  RoomID : String := ""
  State : List (String × Int) := []
  Channel : String := ""
deriving DecidableEq, Repr

/-- `UserNoticeMessage` (note: its `MsgParams` is a `map[string]string`;
the values are copied from the tags verbatim). -/
structure UserNoticeMessage where
  User : User
  Raw : String := ""
  Type' : MessageType := .UNSET
  RawType : String := ""
  Tags : List (String × String) := []
  RoomID : String := ""
  ID : String := ""
  Time : Int := 0
  MsgID : String := ""
  MsgParams : List (String × String) := []
  SystemMsg : String := ""
  Message : String := ""
  Channel : String := ""
  Emotes : List Emote := []
deriving DecidableEq, Repr

/-- `UserStateMessage`. -/
structure UserStateMessage where
  User : User
  Raw : String := ""
  Type' : MessageType := .UNSET
  RawType : String := ""
  Tags : List (String × String) := []
  Channel : String := ""
  EmoteSets : List String := []
deriving DecidableEq, Repr

/-- `NoticeMessage`. -/
structure NoticeMessage where
  Raw : String := ""
  Type' : MessageType := .UNSET
  RawType : String := ""
  Tags : List (String × String) := []
  MsgID : String := ""
  Message : String := ""
  Channel : String := ""
deriving DecidableEq, Repr

/-- `UserJoinMessage`. -/
structure UserJoinMessage where
  Raw : String := ""
  Type' : MessageType := .UNSET
  RawType : String := ""
  User : String := ""
  Channel : String := ""
deriving DecidableEq, Repr

/-- `UserPartMessage`. -/
structure UserPartMessage where
  Raw : String := ""
  Type' : MessageType := .UNSET
  RawType : String := ""
  User : String := ""
  Channel : String := ""
deriving DecidableEq, Repr

/-- `ReconnectMessage`. -/
structure ReconnectMessage where
  Raw : String := ""
  Type' : MessageType := .UNSET
  RawType : String := ""
deriving DecidableEq, Repr

/-- `NamesMessage`. -/
structure NamesMessage where
  Raw : String := ""
  Type' : MessageType := .UNSET
  RawType : String := ""
  Channel : String := ""
  Users : List String := []
deriving DecidableEq, Repr

/-- `PingMessage`. -/
structure PingMessage where
  Raw : String := ""
  Type' : MessageType := .UNSET
  RawType : String := ""
  Message : String := ""
deriving DecidableEq, Repr

/-- `PongMessage`. -/
structure PongMessage where
  Raw : String := ""
  Type' : MessageType := .UNSET
  RawType : String := ""
  Message : String := ""
deriving DecidableEq, Repr

/-- `RawMessage` — the fallback record. -/
structure RawMessage where
  Raw : String := ""
  Type' : MessageType := .UNSET
  RawType : String := ""
  Tags : List (String × String) := []
  Message : String := ""
deriving DecidableEq, Repr

/-- The `Message` interface: the closed set of records a decoder returns. -/
inductive Message where
  | whisper (m : WhisperMessage)
  | privmsg (m : PrivateMessage)
  | clearchat (m : ClearChatMessage)
  | roomstate (m : RoomStateMessage)
  | usernotice (m : UserNoticeMessage)
  | userstate (m : UserStateMessage)
  | notice (m : NoticeMessage)
  | join (m : UserJoinMessage)
  | part (m : UserPartMessage)
  | reconnect (m : ReconnectMessage)
  | names (m : NamesMessage)
  | ping (m : PingMessage)
  | pong (m : PongMessage)
  | raw (m : RawMessage)
deriving DecidableEq, Repr

/-- The `Type` field of whichever record a decoder produced. -/
def Message.Type' : Message → MessageType
  | .whisper m => m.Type'
  | .privmsg m => m.Type'
  | .clearchat m => m.Type'
  | .roomstate m => m.Type'
  | .usernotice m => m.Type'
  | .userstate m => m.Type'
  | .notice m => m.Type'
  | .join m => m.Type'
  | .part m => m.Type'
  | .reconnect m => m.Type'
  | .names m => m.Type'
  | .ping m => m.Type'
  | .pong m => m.Type'
  | .raw m => m.Type'

/-- `parseRawMessage` body recovery (unnamed file, lines 143–148): the first
parameter not containing `#`, joined with the rest. -/
def rawMessageBody : List String → String
  | [] => ""
  | v :: rest =>
    if goContains v "#" then rawMessageBody rest else goJoin (v :: rest) " "

/-- `parseRawMessage` (unnamed file, lines 135–151). -/
def parseRawMessage (message : ircMessage) : RawMessage :=
  { Raw := message.Raw,
    Type' := parseMessageType message.Command,
    RawType := message.Command,
    Tags := message.Tags,
    Message := rawMessageBody message.Params }

/-- `parseWhisperMessage` (unnamed file, lines 153–178).  `Params[0]` is
indexed unconditionally (`none` on an empty parameter list); the action
marker is the substring `/me`, trimmed as a prefix. -/
def parseWhisperMessage (message : ircMessage) : Option Message := do
  let user ← parseUser message
  let msgText :=
    if message.Params.length = 2 then message.Params.getD 1 "" else ""
  let target ← message.Params.head?
  let emotes ← parseEmotes (mapGetD message.Tags "emotes" "") msgText
  let (text, action) :=
    if goContains msgText "/me" then (goTrimPre msgText "/me", true)
    else (msgText, false)
  pure (.whisper
    { User := user,
      Raw := message.Raw,
      Type' := parseMessageType message.Command,
      RawType := message.Command,
      Tags := message.Tags,
      MessageID := mapGetD message.Tags "message-id" "",
      ThreadID := mapGetD message.Tags "thread-id" "",
      Message := text,
      Target := target,
      Emotes := emotes,
      Action := action })

/-- `parsePrivateMessage` (unnamed file, lines 180–213).  Emotes are decoded
against the body before the ACTION markers are stripped. -/
def parsePrivateMessage (message : ircMessage) : Option Message := do
  let user ← parseUser message
  let msgText :=
    if message.Params.length = 2 then message.Params.getD 1 "" else ""
  let p0 ← message.Params.head?
  let emotes ← parseEmotes (mapGetD message.Tags "emotes" "") msgText
  let bits :=
    match mapLookup message.Tags "bits" with
    | some rawBits => goAtoi rawBits
    | none => 0
  let stripped ← actionStrip msgText
  pure (.privmsg
    { User := user,
      Raw := message.Raw,
      Type' := parseMessageType message.Command,
      RawType := message.Command,
      Tags := message.Tags,
      RoomID := mapGetD message.Tags "room-id" "",
      ID := mapGetD message.Tags "id" "",
      Time := parseTime (mapGetD message.Tags "tmi-sent-ts" ""),
      Message := stripped.1,
      Channel := goTrimPre p0 "#",
      Emotes := emotes,
      Bits := bits,
      Action := stripped.2 })

/-- `parseClearChatMessage` (unnamed file, lines 215–239). -/
def parseClearChatMessage (message : ircMessage) : Option Message := do
  let p0 ← message.Params.head?
  let banDuration :=
    match mapLookup message.Tags "ban-duration" with
    | some raw => goAtoi raw
    | none => 0
  pure (.clearchat
    { Raw := message.Raw,
      Type' := parseMessageType message.Command,
      RawType := message.Command,
      Tags := message.Tags,
      RoomID := mapGetD message.Tags "room-id" "",
      Time := parseTime (mapGetD message.Tags "tmi-sent-ts" ""),
      TargetUserID := mapGetD message.Tags "target-user-id" "",
      Channel := goTrimPre p0 "#",
      BanDuration := banDuration,
      TargetUsername :=
        if message.Params.length = 2 then message.Params.getD 1 "" else "" })

/-- `parseRoomStateMessage` (unnamed file, lines 241–265). -/
def parseRoomStateMessage (message : ircMessage) : Option Message := do
  let p0 ← message.Params.head?
  let stateTags :=
    ["emote-only", "followers-only", "r9k", "rituals", "slow", "subs-only"]
  let state := stateTags.foldl (fun acc tag =>
    match mapLookup message.Tags tag with
    | none => acc
    | some rawValue => mapInsert acc tag (goAtoi rawValue)) []
  pure (.roomstate
    { Raw := message.Raw,
      Type' := parseMessageType message.Command,
      RawType := message.Command,
      Tags := message.Tags,
      RoomID := mapGetD message.Tags "room-id" "",
      State := state,
      Channel := goTrimPre p0 "#" })

/-- `parseUserNoticeMessage` (unnamed file, lines 267–297).  `MsgParams` is
a `map[string]string` filled with the raw tag values of every tag whose name
contains `msg-param` (Go iterates the tag map in unspecified order; the
list order used here is one admissible order, and the per-key result is
order-independent because tag keys are unique). -/
def parseUserNoticeMessage (message : ircMessage) : Option Message := do
  let user ← parseUser message
  let msgText :=
    if message.Params.length = 2 then message.Params.getD 1 "" else ""
  let p0 ← message.Params.head?
  let emotes ← parseEmotes (mapGetD message.Tags "emotes" "") msgText
  let msgParams := message.Tags.foldl (fun acc p =>
    if goContains p.1 "msg-param" then mapInsert acc p.1 p.2 else acc) []
  pure (.usernotice
    { User := user,
      Raw := message.Raw,
      Type' := parseMessageType message.Command,
      RawType := message.Command,
      Tags := message.Tags,
      RoomID := mapGetD message.Tags "room-id" "",
      ID := mapGetD message.Tags "id" "",
      Time := parseTime (mapGetD message.Tags "tmi-sent-ts" ""),
      MsgID := mapGetD message.Tags "msg-id" "",
      MsgParams := msgParams,
      SystemMsg := mapGetD message.Tags "system-msg" "",
      Message := msgText,
      Channel := goTrimPre p0 "#",
      Emotes := emotes })

/-- `parseUserStateMessage` (unnamed file, lines 299–317). -/
def parseUserStateMessage (message : ircMessage) : Option Message := do
  let user ← parseUser message
  let p0 ← message.Params.head?
  pure (.userstate
    { User := user,
      Raw := message.Raw,
      Type' := parseMessageType message.Command,
      RawType := message.Command,
      Tags := message.Tags,
      Channel := goTrimPre p0 "#",
      EmoteSets :=
        match mapLookup message.Tags "emote-sets" with
        | some raw => goSplit raw ","
        | none => [] })

/-- `parseNoticeMessage` (unnamed file, lines 319–335). -/
def parseNoticeMessage (message : ircMessage) : Option Message := do
  let p0 ← message.Params.head?
  pure (.notice
    { Raw := message.Raw,
      Type' := parseMessageType message.Command,
      RawType := message.Command,
      Tags := message.Tags,
      MsgID := mapGetD message.Tags "msg-id" "",
      Message :=
        if message.Params.length = 2 then message.Params.getD 1 "" else "",
      Channel := goTrimPre p0 "#" })

/-- `parseUserJoinMessage` (unnamed file, lines 337–351). -/
def parseUserJoinMessage (message : ircMessage) : Option Message :=
  some (.join
    { Raw := message.Raw,
      Type' := parseMessageType message.Command,
      RawType := message.Command,
      User := message.Source.Username,
      Channel :=
        if message.Params.length = 1 then
          goTrimPre (message.Params.headD "") "#"
        else "" })

/-- `parseUserPartMessage` (unnamed file, lines 353–367). -/
def parseUserPartMessage (message : ircMessage) : Option Message :=
  some (.part
    { Raw := message.Raw,
      Type' := parseMessageType message.Command,
      RawType := message.Command,
      User := message.Source.Username,
      Channel :=
        if message.Params.length = 1 then
          goTrimPre (message.Params.headD "") "#"
        else "" })

/-- `parseReconnectMessage` (unnamed file, lines 369–375). -/
def parseReconnectMessage (message : ircMessage) : Option Message :=
  some (.reconnect
    { Raw := message.Raw,
      Type' := parseMessageType message.Command,
      RawType := message.Command })

/-- `parseNamesMessage` (unnamed file, lines 377–390): exactly 4 parameters
fill `Channel` (3rd, `#` stripped) and `Users` (4th, split on spaces); any
other parameter count leaves both fields at their zero values. -/
def parseNamesMessage (message : ircMessage) : Option Message :=
  some (.names
    { Raw := message.Raw,
      Type' := parseMessageType message.Command,
      RawType := message.Command,
      Channel :=
        if message.Params.length = 4 then
          goTrimPre (message.Params.getD 2 "") "#"
        else "",
      Users :=
        if message.Params.length = 4 then
          goSplit (message.Params.getD 3 "") " "
        else [] })

/-- `parsePingMessage` (unnamed file, lines 392–404). -/
def parsePingMessage (message : ircMessage) : Option Message :=
  some (.ping
    { Raw := message.Raw,
      Type' := parseMessageType message.Command,
      RawType := message.Command,
      Message :=
        if message.Params.length = 1 then
          (goSplit (message.Params.headD "") " ").headD ""
        else "" })

/-- `parsePongMessage` (unnamed file, lines 406–418). -/
def parsePongMessage (message : ircMessage) : Option Message :=
  some (.pong
    { Raw := message.Raw,
      Type' := parseMessageType message.Command,
      RawType := message.Command,
      Message :=
        if message.Params.length = 2 then
          (goSplit (message.Params.getD 1 "") " ").headD ""
        else "" })

/-- `messageTypeMap` (unnamed file, lines 55–71): the read-only dispatch
table from command token to message kind and decoder; `none` for a command
with no entry. -/
def messageTypeMap (c : String) :
    Option (MessageType × (ircMessage → Option Message)) :=
  match c with
  | "WHISPER" => some (.WHISPER, parseWhisperMessage)
  | "PRIVMSG" => some (.PRIVMSG, parsePrivateMessage)
  | "CLEARCHAT" => some (.CLEARCHAT, parseClearChatMessage)
  | "ROOMSTATE" => some (.ROOMSTATE, parseRoomStateMessage)
  | "USERNOTICE" => some (.USERNOTICE, parseUserNoticeMessage)
  | "USERSTATE" => some (.USERSTATE, parseUserStateMessage)
  | "NOTICE" => some (.NOTICE, parseNoticeMessage)
  | "JOIN" => some (.JOIN, parseUserJoinMessage)
  | "PART" => some (.PART, parseUserPartMessage)
  | "RECONNECT" => some (.RECONNECT, parseReconnectMessage)
  | "353" => some (.NAMES, parseNamesMessage)
  | "PING" => some (.PING, parsePingMessage)
  | "PONG" => some (.PONG, parsePongMessage)
  | _ => none

/-- The kind column of `messageTypeMap` is `parseMessageType`. -/
theorem messageTypeMap_fst (c : String) (mt : MessageType)
    (p : ircMessage → Option Message) (h : messageTypeMap c = some (mt, p)) :
    mt = parseMessageType c := by
  unfold messageTypeMap at h
  split at h <;> simp_all <;> rw [← h.1] <;> rfl

/-- A command with no `messageTypeMap` entry has kind `UNSET`. -/
theorem messageTypeMap_none (c : String) (h : messageTypeMap c = none) :
    parseMessageType c = .UNSET := by
  unfold messageTypeMap at h
  unfold parseMessageType
  split at h <;> simp_all

/-- Modelled from the spec: the Tag Block Decoder used by the `V2` pipeline
is part of the missing `parseIRCMessage` helper (only its callers are among
the provided source files).  Per §4.2, each tag value has the two-character
sequence `\s` decoded to a literal space and the sequence `\n` removed (the
other protocol escapes are a documented gap). -/
def parseTagValue (rawValue : String) : String :=
  goReplaceAll (goReplaceAll rawValue "\\s" " ") "\\n" ""

/-- Modelled from the spec: the tag-block half of the missing
`parseIRCMessage` (§4.2) — strip the leading `@`, split on `;`, split each
entry on the first `=` (an entry with no `=` maps to the empty value), and
unescape each value. -/
def parseIRCTags (rawTags : String) : List (String × String) :=
  (goSplit rawTags ";").foldl (fun acc tag =>
    match goSplitN tag "=" 2 with
    | key :: value :: _ => mapInsert acc key (parseTagValue value)
    | key :: _ => mapInsert acc key ""
    | [] => acc) []

/-- Modelled from the spec: the parameter collection of the missing Line
Framer — tokens up to the first one starting with `:`, which introduces
the trailing long parameter (the text after the first ` :`, §4.1), taken
whole with the `:` stripped. -/
def collectParams : List String → List String
  | [] => []
  | v :: rest =>
    if goHasPre v ":" then [goTrimPre (goJoin (v :: rest) " ") ":"]
    else v :: collectParams rest

/-- Modelled from the spec: the Line Framer `parseIRCMessage` of the `V2`
pipeline is not among the provided source files — only its callers are.
Modelled from §4.1, shaped to the observable contract of those callers: the
line is tokenised on spaces; a leading `@…` token is the tag block (absent
when the line does not begin with `@`); a following `:…` token is the
source prefix, whose username is the substring before `!` when a `!` is
present; the next token is the command; the remaining tokens are the
parameters, a token starting with `:` beginning the trailing long
parameter.  The `Bool` is Go's `err == nil`: a line that ends before a
command token is a partial message (`false`), returned for the caller's
fallback path. -/
def parseIRCMessage (line : String) : ircMessage × Bool :=
  let split := goSplit line " "
  let (tags, rest1) :=
    match split with
    | t :: rest =>
      if goHasPre t "@" then (parseIRCTags (goTrimPre t "@"), rest)
      else (([] : List (String × String)), split)
    | [] => ([], split)
  match rest1 with
  | [] => ({ Raw := line, Tags := tags }, false)
  | s :: rest2 =>
    let (source, restC) :=
      if goHasPre s ":" then
        let src := goTrimPre s ":"
        (({ Username :=
            if goContains src "!" then (goSplitN src "!" 2).headD "" else "" } :
          ircMessageSource), rest2)
      else (({ Username := "" } : ircMessageSource), s :: rest2)
    match restC with
    | [] => ({ Raw := line, Tags := tags, Source := source }, false)
    | cmd :: paramToks =>
      ({ Raw := line, Tags := tags, Source := source, Command := cmd,
         Params := collectParams paramToks }, true)

/-- `ParseMessage` (unnamed file, lines 81–92): frame the line; on a framing
error fall back to `parseRawMessage`; otherwise dispatch through
`messageTypeMap`, falling back to `parseRawMessage` for a command with no
entry.  `none` models a Go panic inside the selected decoder. -/
def ParseMessage (line : String) : Option Message :=
  let framed := parseIRCMessage line
  if !framed.2 then some (.raw (parseRawMessage framed.1))
  else
    match messageTypeMap framed.1.Command with
    | some mt => mt.2 framed.1
    | none => some (.raw (parseRawMessage framed.1))

end V2

example : (V2.parseIRCMessage "PING :tmi.twitch.tv").1.Command = "PING" := by decide
example : (V2.parseIRCMessage "PING :tmi.twitch.tv").1.Params = ["tmi.twitch.tv"] := by decide
example :
    (V2.parseIRCMessage "@badges=subscriber/6;color=#FF0000 :redflamingo13!redflamingo13@redflamingo13.tmi.twitch.tv PRIVMSG #pajlada :Thrashh5, kinda").1 =
    { Raw := "@badges=subscriber/6;color=#FF0000 :redflamingo13!redflamingo13@redflamingo13.tmi.twitch.tv PRIVMSG #pajlada :Thrashh5, kinda",
      Source := { Username := "redflamingo13" },
      Command := "PRIVMSG",
      Params := ["#pajlada", "Thrashh5, kinda"],
      Tags := [("badges", "subscriber/6"), ("color", "#FF0000")] } := by decide
example : V2.parseBadges "subscriber" = none := by decide
example : V2.parseBadges "subscriber/6,premium/1" =
    some [("subscriber", 6), ("premium", 1)] := by decide

/-! ## V1 — the implementation of `message.go` (`parseMessage` and the
`parseXXXMessage` methods).  Only the parts the claims touch are embedded:
`parseMessage` / `parseMiddle` / `parseTags` / `parseMessageType`, the user
and badge sub-decoders, the emote sub-decoder, the PRIVMSG / WHISPER /
USERNOTICE decoders, and `parseNames`.  Go struct embedding
(`channelMessage` → `roomMessage` → `chatMessage`) promotes the embedded
fields; the records here are flattened accordingly. -/

namespace V1

/-- `RawMessage` of `message.go` (the `Type` field is `Type'` because
`Type` is reserved in Lean). -/
structure RawMessage where
  Type' : MessageType := .UNSET
  RawType : String := ""
  Raw : String := ""
  Tags : List (String × String) := []
  Message : String := ""
deriving DecidableEq, Repr

/-- `message` — the internal record `parseMessage` produces. -/
structure message where
  RawMessage : RawMessage := {}
  Channel : String := ""
  Username : String := ""
deriving DecidableEq, Repr

/-- `parseMessageType` (message.go, lines 119–138): the 7-command switch;
everything else — including JOIN, PART, RECONNECT, 353, PING and PONG — is
`UNSET`. -/
def parseMessageType : String → MessageType
  | "PRIVMSG" => .PRIVMSG
  | "WHISPER" => .WHISPER
  | "CLEARCHAT" => .CLEARCHAT
  | "NOTICE" => .NOTICE
  | "ROOMSTATE" => .ROOMSTATE
  | "USERSTATE" => .USERSTATE
  | "USERNOTICE" => .USERNOTICE
  | _ => .UNSET

/-- `parseTags` (message.go, lines 140–155): strip the leading `@`, split
on `;`, split each entry on the first `=` (an entry with no `=` maps to the
empty value).  No escape sequences are decoded here. -/
def parseTags (tagsRaw : String) : List (String × String) :=
  (goSplit (goTrimPre tagsRaw "@") ";").foldl (fun tags v =>
    match goSplitN v "=" 2 with
    | key :: value :: _ => mapInsert tags key value
    | key :: _ => mapInsert tags key ""
    | [] => tags) []

/-- `parseMiddle` (message.go, lines 102–117): over the first three
space-separated tokens, token index 1 is the raw command; any other token
containing `!` gives the username (text before the `!`); any other token
containing `#` gives the channel (`#` stripped). -/
def parseMiddle (middle : String) : String × String × String :=
  ((goSplitN middle " " 3).enum.foldl (fun acc iv =>
    let (rawType, channel, username) := acc
    if iv.1 = 1 then (iv.2, channel, username)
    else if goContains iv.2 "!" then
      (rawType, channel, (goSplitN iv.2 "!" 2).headD "")
    else if goContains iv.2 "#" then (rawType, goTrimPre iv.2 "#", username)
    else acc) ("", "", ""))

/-- `parseMessage` (message.go, lines 67–100): a line that does not begin
with `@` is returned whole as an `UNSET` record; otherwise the line splits
on the first two ` :` into tag block, middle and trailing message, padding
missing segments with empty strings. -/
def parseMessage (line : String) : message :=
  if ¬ goHasPre line "@" then
    { RawMessage := { Type' := .UNSET, Raw := line, Message := line } }
  else
    let split0 := goSplitN line " :" 3
    let split := split0 ++ List.replicate (3 - split0.length) ""
    let mid := parseMiddle (split.getD 1 "")
    { Channel := mid.2.1,
      Username := mid.2.2,
      RawMessage :=
        { Type' := parseMessageType mid.1,
          RawType := mid.1,
          Raw := line,
          Tags := parseTags (split.getD 0 ""),
          Message := split.getD 2 "" } }

/-- The loop of `parseBadges` (message.go, lines 340–348), factored over the
raw tag value: a pair with no `/` (`len(badge) < 2`) is skipped. -/
def parseBadgesList (rawBadges : String) : List (String × Int) :=
  (goSplit rawBadges ",").foldl (fun badges v =>
    match goSplitN v "/" 2 with
    | key :: level :: _ => mapInsert badges key (goAtoi level)
    | _ => badges) []

/-- `parseBadges` (message.go, lines 332–350). -/
def message.parseBadges (m : message) : List (String × Int) :=
  match mapLookup m.RawMessage.Tags "badges" with
  | none => []
  | some rawBadges => parseBadgesList rawBadges

/-- `parseUser` (message.go, lines 316–331). -/
def message.parseUser (m : message) : User :=
  let user : User :=
    { ID := mapGetD m.RawMessage.Tags "user-id" "",
      Name := m.Username,
      DisplayName := mapGetD m.RawMessage.Tags "display-name" "",
      Color := mapGetD m.RawMessage.Tags "color" "",
      Badges := m.parseBadges }
  if user.Name = "" then { user with Name := goToLower user.DisplayName }
  else user

/-- One group of the `emotes` tag (the loop body of `parseEmotes`,
message.go lines 404–418): unlike `V2`, the slice is
`runes[firstIndex : lastIndex]` — exclusive end. -/
def parseEmoteGroup (runes : List Char) (v : String) : Option Emote :=
  match goSplitN v ":" 2 with
  | id :: positions :: _ =>
    (match goSplitN ((goSplitN positions "," 2).headD "") "-" 2 with
    | first :: last :: _ => do
      let name ← goRuneSlice runes (goAtoi first) (goAtoi last)
      pure { Name := name, ID := id,
             Count := (goCount positions "," : Int) + 1 }
    | _ => none)
  | _ => none

def parseEmotesLoop (runes : List Char) : List String → Option (List Emote)
  | [] => some []
  | v :: rest => do
    let e ← parseEmoteGroup runes v
    let es ← parseEmotesLoop runes rest
    pure (e :: es)

/-- `parseEmotes` (message.go, lines 394–421). -/
def message.parseEmotes (m : message) : Option (List Emote) :=
  let rawEmotes := mapGetD m.RawMessage.Tags "emotes" ""
  if rawEmotes = "" then some []
  else parseEmotesLoop m.RawMessage.Message.data (goSplit rawEmotes "/")

/-- `userMessage` — `{Action, Emotes}`. -/
structure userMessage where
  Action : Bool := false
  Emotes : List Emote := []
deriving DecidableEq, Repr

/-- `parseUserMessage` (message.go, lines 381–392): decodes emotes against
the (unstripped) message body and sets the `Action` flag from the
`\u0001ACTION` markers; it does not strip them. -/
def message.parseUserMessage (m : message) : Option userMessage := do
  let emotes ← m.parseEmotes
  pure { Emotes := emotes,
         Action := goHasPre m.RawMessage.Message "\u0001ACTION" &&
           goHasSuf m.RawMessage.Message "\u0001" }

/-- Go `strconv.ParseInt(s, 10, 64)` with only the error inspected by the
caller: `none` on a syntax error. -/
def goParseInt? (s : String) : Option Int :=
  match s.data with
  | '-' :: rest => (decDigits? rest).map (fun n => -(n : Int))
  | '+' :: rest => (decDigits? rest).map (fun n => (n : Int))
  | ds => (decDigits? ds).map (fun n => (n : Int))

/-- `chatMessage` — the flattened `channelMessage`/`roomMessage`/
`chatMessage` embedding chain. -/
structure chatMessage where
  Type' : MessageType := .UNSET
  RawType : String := ""
  Raw : String := ""
  Tags : List (String × String) := []
  Message : String := ""
  Channel : String := ""
  RoomID : String := ""
  ID : String := ""
  Time : Int := 0
deriving DecidableEq, Repr

/-- `parseChatMessage` (message.go, lines 352–365), with
`parseRoomMessage`/`parseChannelMessage` inlined by the flattening; a
`tmi-sent-ts` that fails `ParseInt` leaves the zero time. -/
def message.parseChatMessage (m : message) : chatMessage :=
  { Type' := m.RawMessage.Type',
    RawType := m.RawMessage.RawType,
    Raw := m.RawMessage.Raw,
    Tags := m.RawMessage.Tags,
    Message := m.RawMessage.Message,
    Channel := m.Channel,
    RoomID := mapGetD m.RawMessage.Tags "room-id" "",
    ID := mapGetD m.RawMessage.Tags "id" "",
    Time :=
      match goParseInt? (mapGetD m.RawMessage.Tags "tmi-sent-ts" "") with
      | some i => i * 1000000
      | none => 0 }

/-- The byte slice `text[8 : len(text)-1]` that strips the ACTION markers
(message.go, lines 164 and 184): panics (`none`) when the length is 8. -/
def actionSlice (text : String) : Option String :=
  if 9 ≤ text.data.length then
    some (String.mk ((text.data.drop 8).dropLast))
  else none

/-- `PRIVMSGMessage`, flattened. -/
structure PRIVMSGMessage where
  Type' : MessageType := .UNSET
  RawType : String := ""
  Raw : String := ""
  Tags : List (String × String) := []
  Message : String := ""
  Channel : String := ""
  RoomID : String := ""
  ID : String := ""
  Time : Int := 0
  Action : Bool := false
  Emotes : List Emote := []
  Bits : Int := 0
deriving DecidableEq, Repr

/-- `parsePRIVMSGMessage` (message.go, lines 157–175): assembles the chat
and user sub-records, then — when the `Action` flag is set — replaces the
body with `Message[8 : len-1]`, and decodes `bits`. -/
def message.parsePRIVMSGMessage (m : message) :
    Option (User × PRIVMSGMessage) := do
  let chat := m.parseChatMessage
  let um ← m.parseUserMessage
  let text ← if um.Action then actionSlice chat.Message else some chat.Message
  let bits :=
    match mapLookup m.RawMessage.Tags "bits" with
    | some rawBits => goAtoi rawBits
    | none => 0
  pure (m.parseUser,
    { Type' := chat.Type',
      RawType := chat.RawType,
      Raw := chat.Raw,
      Tags := chat.Tags,
      Message := text,
      Channel := chat.Channel,
      RoomID := chat.RoomID,
      ID := chat.ID,
      Time := chat.Time,
      Action := um.Action,
      Emotes := um.Emotes,
      Bits := bits })

/-- `WHISPERMessage`, flattened (its base is `RawMessage`, not
`chatMessage`). -/
structure WHISPERMessage where
  Type' : MessageType := .UNSET
  RawType : String := ""
  Raw : String := ""
  Tags : List (String × String) := []
  Message : String := ""
  Action : Bool := false
  Emotes : List Emote := []
deriving DecidableEq, Repr

/-- `parseWHISPERMessage` (message.go, lines 177–188): same ACTION handling
as PRIVMSG. -/
def message.parseWHISPERMessage (m : message) :
    Option (User × WHISPERMessage) := do
  let um ← m.parseUserMessage
  let text ←
    if um.Action then actionSlice m.RawMessage.Message
    else some m.RawMessage.Message
  pure (m.parseUser,
    { Type' := m.RawMessage.Type',
      RawType := m.RawMessage.RawType,
      Raw := m.RawMessage.Raw,
      Tags := m.RawMessage.Tags,
      Message := text,
      Action := um.Action,
      Emotes := um.Emotes })

/-- The mixed string/int/bool values of the USERNOTICE parameter bag
(`map[string]interface{}` in Go). -/
inductive MsgParamValue where
  | str (v : String)
  | int (v : Int)
  | boolean (v : Bool)
deriving DecidableEq, Repr

/-- `paramToInt` (message.go, lines 286–293): coerce the bag entry to an
integer via `Atoi` of the `rawValue.(string)` type assertion; a non-string
value would make the assertion panic (`none`), an absent key is left
alone. -/
def paramToInt (m : List (String × MsgParamValue)) (tag : String) :
    Option (List (String × MsgParamValue)) :=
  match mapLookup m tag with
  | none => some m
  | some (.str s) => some (mapInsert m tag (.int (goAtoi s)))
  | some _ => none

/-- `paramToBool` (message.go, lines 277–284): the entry becomes the
boolean `value == "1"`. -/
def paramToBool (m : List (String × MsgParamValue)) (tag : String) :
    Option (List (String × MsgParamValue)) :=
  match mapLookup m tag with
  | none => some m
  | some (.str s) => some (mapInsert m tag (.boolean (s == "1")))
  | some _ => none

/-- `parseMsgParams` (message.go, lines 261–275): copy every tag whose name
contains `msg-param`, with `\s` replaced by a space, then coerce the four
integer keys and the one boolean key.  (Go iterates the tag map in
unspecified order; the tag list order is one admissible order, and the
result is order-independent because tag keys are unique.) -/
def parseMsgParams (tags : List (String × String)) :
    Option (List (String × MsgParamValue)) := do
  let m0 := tags.foldl (fun acc p =>
    if goContains p.1 "msg-param" then
      mapInsert acc p.1 (.str (goReplaceAll p.2 "\\s" " "))
    else acc) []
  let m1 ← paramToInt m0 "msg-param-cumulative-months"
  let m2 ← paramToInt m1 "msg-param-months"
  let m3 ← paramToBool m2 "msg-param-should-share-streak"
  let m4 ← paramToInt m3 "msg-param-streak-months"
  let m5 ← paramToInt m4 "msg-param-viewerCount"
  pure m5

/-- `USERNOTICEMessage`, flattened. -/
structure USERNOTICEMessage where
  Type' : MessageType := .UNSET
  RawType : String := ""
  Raw : String := ""
  Tags : List (String × String) := []
  Message : String := ""
  Channel : String := ""
  RoomID : String := ""
  ID : String := ""
  Time : Int := 0
  Action : Bool := false
  Emotes : List Emote := []
  MsgID : String := ""
  MsgParams : List (String × MsgParamValue) := []
  SystemMsg : String := ""
deriving DecidableEq, Repr

/-- `parseUSERNOTICEMessage` (message.go, lines 241–259): chat + user
sub-records, `msg-id`, the parameter bag, and the `system-msg` tag with
`\s` → space, `\n` removed and surrounding whitespace trimmed. -/
def message.parseUSERNOTICEMessage (m : message) :
    Option (User × USERNOTICEMessage) := do
  let chat := m.parseChatMessage
  let um ← m.parseUserMessage
  let msgParams ← parseMsgParams m.RawMessage.Tags
  let systemMsg :=
    match mapLookup m.RawMessage.Tags "system-msg" with
    | none => ""
    | some raw =>
      goTrimSpace (goReplaceAll (goReplaceAll raw "\\s" " ") "\\n" "")
  pure (m.parseUser,
    { Type' := chat.Type',
      RawType := chat.RawType,
      Raw := chat.Raw,
      Tags := chat.Tags,
      Message := chat.Message,
      Channel := chat.Channel,
      RoomID := chat.RoomID,
      ID := chat.ID,
      Time := chat.Time,
      Action := um.Action,
      Emotes := um.Emotes,
      MsgID := mapGetD m.RawMessage.Tags "msg-id" "",
      MsgParams := msgParams,
      SystemMsg := systemMsg })

/-- `parseNames` (message.go, lines 429–436): splits the raw text on `:`
and indexes `lines[1]`, `lines[2]` and `channelDirty[1]` unguarded — a
malformed line panics (`none`). -/
def parseNames (text : String) : Option (String × List String) :=
  match goSplit text ":" with
  | _ :: l1 :: l2 :: _ =>
    (match goSplit l1 "#" with
    | _ :: c1 :: _ => some (goTrim c1 [' '], goSplit l2 " ")
    | _ => none)
  | _ => none

end V1

example : V1.parseMessageType "PING" = .UNSET := by decide
example : (V1.parseMessage "PING :tmi.twitch.tv").RawMessage.Type' = .UNSET := by decide
example : mapLookup (V1.parseTags "@foo=a\\sb") "foo" = some "a\\sb" := by decide
example : V1.parseBadgesList "subscriber/6,premium,bits/x" =
    [("subscriber", 6), ("bits", 0)] := by decide

/-! ## Helper lemmas: each V2 decoder stamps its record with
`parseMessageType` of the framed command -/

theorem v2_type_whisper (msg : V2.ircMessage) (r : V2.Message)
    (h : V2.parseWhisperMessage msg = some r) :
    r.Type' = V2.parseMessageType msg.Command := by
  unfold V2.parseWhisperMessage at h
  repeat split at h
  all_goals simp only [Option.bind_eq_bind, Option.bind_eq_some,
    Option.pure_def, Option.some.injEq] at h
  all_goals (obtain ⟨u, -, t, -, es, -, h⟩ := h; subst h; rfl)

theorem v2_type_privmsg (msg : V2.ircMessage) (r : V2.Message)
    (h : V2.parsePrivateMessage msg = some r) :
    r.Type' = V2.parseMessageType msg.Command := by
  unfold V2.parsePrivateMessage at h
  repeat split at h
  all_goals simp only [Option.bind_eq_bind, Option.bind_eq_some,
    Option.pure_def, Option.some.injEq] at h
  all_goals (obtain ⟨u, -, p, -, es, -, st, -, h⟩ := h; subst h; rfl)

theorem v2_type_clearchat (msg : V2.ircMessage) (r : V2.Message)
    (h : V2.parseClearChatMessage msg = some r) :
    r.Type' = V2.parseMessageType msg.Command := by
  unfold V2.parseClearChatMessage at h
  repeat split at h
  all_goals simp only [Option.bind_eq_bind, Option.bind_eq_some,
    Option.pure_def, Option.some.injEq] at h
  all_goals (obtain ⟨p, -, h⟩ := h; subst h; rfl)

theorem v2_type_roomstate (msg : V2.ircMessage) (r : V2.Message)
    (h : V2.parseRoomStateMessage msg = some r) :
    r.Type' = V2.parseMessageType msg.Command := by
  unfold V2.parseRoomStateMessage at h
  all_goals simp only [Option.bind_eq_bind, Option.bind_eq_some,
    Option.pure_def, Option.some.injEq] at h
  all_goals (obtain ⟨p, -, h⟩ := h; subst h; rfl)

theorem v2_type_usernotice (msg : V2.ircMessage) (r : V2.Message)
    (h : V2.parseUserNoticeMessage msg = some r) :
    r.Type' = V2.parseMessageType msg.Command := by
  unfold V2.parseUserNoticeMessage at h
  repeat split at h
  all_goals simp only [Option.bind_eq_bind, Option.bind_eq_some,
    Option.pure_def, Option.some.injEq] at h
  all_goals (obtain ⟨u, -, p, -, es, -, h⟩ := h; subst h; rfl)

theorem v2_type_userstate (msg : V2.ircMessage) (r : V2.Message)
    (h : V2.parseUserStateMessage msg = some r) :
    r.Type' = V2.parseMessageType msg.Command := by
  unfold V2.parseUserStateMessage at h
  repeat split at h
  all_goals simp only [Option.bind_eq_bind, Option.bind_eq_some,
    Option.pure_def, Option.some.injEq] at h
  all_goals (obtain ⟨u, -, p, -, h⟩ := h; subst h; rfl)

theorem v2_type_notice (msg : V2.ircMessage) (r : V2.Message)
    (h : V2.parseNoticeMessage msg = some r) :
    r.Type' = V2.parseMessageType msg.Command := by
  unfold V2.parseNoticeMessage at h
  repeat split at h
  all_goals simp only [Option.bind_eq_bind, Option.bind_eq_some,
    Option.pure_def, Option.some.injEq] at h
  all_goals (obtain ⟨p, -, h⟩ := h; subst h; rfl)

theorem v2_type_join (msg : V2.ircMessage) (r : V2.Message)
    (h : V2.parseUserJoinMessage msg = some r) :
    r.Type' = V2.parseMessageType msg.Command := by
  unfold V2.parseUserJoinMessage at h
  injection h with h
  subst h
  rfl

theorem v2_type_part (msg : V2.ircMessage) (r : V2.Message)
    (h : V2.parseUserPartMessage msg = some r) :
    r.Type' = V2.parseMessageType msg.Command := by
  unfold V2.parseUserPartMessage at h
  injection h with h
  subst h
  rfl

theorem v2_type_reconnect (msg : V2.ircMessage) (r : V2.Message)
    (h : V2.parseReconnectMessage msg = some r) :
    r.Type' = V2.parseMessageType msg.Command := by
  unfold V2.parseReconnectMessage at h
  injection h with h
  subst h
  rfl

theorem v2_type_names (msg : V2.ircMessage) (r : V2.Message)
    (h : V2.parseNamesMessage msg = some r) :
    r.Type' = V2.parseMessageType msg.Command := by
  unfold V2.parseNamesMessage at h
  injection h with h
  subst h
  rfl

theorem v2_type_ping (msg : V2.ircMessage) (r : V2.Message)
    (h : V2.parsePingMessage msg = some r) :
    r.Type' = V2.parseMessageType msg.Command := by
  unfold V2.parsePingMessage at h
  injection h with h
  subst h
  rfl

theorem v2_type_pong (msg : V2.ircMessage) (r : V2.Message)
    (h : V2.parsePongMessage msg = some r) :
    r.Type' = V2.parseMessageType msg.Command := by
  unfold V2.parsePongMessage at h
  injection h with h
  subst h
  rfl

/-- Any record produced by the decoder a `messageTypeMap` entry names is
stamped with `parseMessageType` of the framed command. -/
theorem v2_entry_type (cmd : String) (mt : MessageType)
    (p : V2.ircMessage → Option V2.Message) (msg : V2.ircMessage)
    (r : V2.Message) (hmap : V2.messageTypeMap cmd = some (mt, p))
    (h : p msg = some r) : r.Type' = V2.parseMessageType msg.Command := by
  unfold V2.messageTypeMap at hmap
  split at hmap <;> simp_all
  all_goals (rw [← hmap.2] at h)
  · exact v2_type_whisper msg r h
  · exact v2_type_privmsg msg r h
  · exact v2_type_clearchat msg r h
  · exact v2_type_roomstate msg r h
  · exact v2_type_usernotice msg r h
  · exact v2_type_userstate msg r h
  · exact v2_type_notice msg r h
  · exact v2_type_join msg r h
  · exact v2_type_part msg r h
  · exact v2_type_reconnect msg r h
  · exact v2_type_names msg r h
  · exact v2_type_ping msg r h
  · exact v2_type_pong msg r h

/-! ## Claims -/

/-- C1: the claim says the decode entry point never aborts for any valid
UTF-8 input line, malformed badge or emote tag values degrading to
empty/zero fields.  The code violates this: `V2.parseBadges` indexes
`pair[1]` unguarded, so a `badges` tag value with no `/level` half (here
`subscriber`) panics, and the panic propagates through `parseUser` and
`parsePrivateMessage` to `ParseMessage`; likewise both emote sub-decoders
index `split[1]` unguarded, so a malformed `emotes` tag value (here `abc`,
no `:`) panics rather than degrading. -/
theorem c1_decode_aborts_on_malformed_tag :
    V2.parseBadges "subscriber" = none ∧
    V2.ParseMessage "@badges=subscriber :u!u@h.tv PRIVMSG #c :hi" = none ∧
    V2.parseEmotes "abc" "hi" = none ∧
    V1.parseEmotesLoop "hi".data ["abc"] = none := by
  refine ⟨by decide, by decide, by decide, by decide⟩

/-- C2: for every line, the decoded record's `Type` field equals the
dispatch-table entry for the framed command token (`353` mapping to
`NAMES`), and any command absent from the table has kind `UNSET`:
(1) every record `ParseMessage` produces is stamped with
`parseMessageType` of the framed command; (2) `parseMessageType` agrees
with the 13 dispatch-table entries; (3) every other command token maps to
`UNSET`. -/
theorem c2_dispatch_correctness :
    (∀ line m, V2.ParseMessage line = some m →
      m.Type' = V2.parseMessageType (V2.parseIRCMessage line).1.Command) ∧
    (V2.parseMessageType "WHISPER" = .WHISPER ∧
     V2.parseMessageType "PRIVMSG" = .PRIVMSG ∧
     V2.parseMessageType "CLEARCHAT" = .CLEARCHAT ∧
     V2.parseMessageType "ROOMSTATE" = .ROOMSTATE ∧
     V2.parseMessageType "USERNOTICE" = .USERNOTICE ∧
     V2.parseMessageType "USERSTATE" = .USERSTATE ∧
     V2.parseMessageType "NOTICE" = .NOTICE ∧
     V2.parseMessageType "JOIN" = .JOIN ∧
     V2.parseMessageType "PART" = .PART ∧
     V2.parseMessageType "RECONNECT" = .RECONNECT ∧
     V2.parseMessageType "353" = .NAMES ∧
     V2.parseMessageType "PING" = .PING ∧
     V2.parseMessageType "PONG" = .PONG) ∧
    (∀ c, c ∉ (["WHISPER", "PRIVMSG", "CLEARCHAT", "ROOMSTATE",
        "USERNOTICE", "USERSTATE", "NOTICE", "JOIN", "PART", "RECONNECT",
        "353", "PING", "PONG"] : List String) →
      V2.parseMessageType c = .UNSET) := by
  refine ⟨?_, by decide, ?_⟩
  · intro line m h
    unfold V2.ParseMessage at h
    dsimp only at h
    split at h
    · injection h with h
      subst h
      rfl
    · split at h
      · rename_i mt hmap
        exact v2_entry_type _ mt.1 mt.2 _ m hmap h
      · injection h with h
        subst h
        rfl
  · intro c hc
    unfold V2.parseMessageType
    split <;> simp_all

/-- Witness for C2: the untagged keep-alive line dispatches to `PING`, and
a token absent from the table maps to `UNSET`. -/
theorem c2_dispatch_correctness_witness :
    (V2.Message.ping
      { Raw := "PING :tmi.twitch.tv", Type' := .PING, RawType := "PING",
        Message := "tmi.twitch.tv" }).Type' =
      V2.parseMessageType
        (V2.parseIRCMessage "PING :tmi.twitch.tv").1.Command ∧
    V2.parseMessageType "GLOBALUSERSTATE" = .UNSET :=
  ⟨c2_dispatch_correctness.1 "PING :tmi.twitch.tv" _ (by decide),
   c2_dispatch_correctness.2.2 "GLOBALUSERSTATE" (by decide)⟩

/-- The tag decoding that the amended C3 describes, written from the
amended words: strip the leading `@`, split entries on `;`, each entry's
name is the text before the first `=` and its value the text after that
first `=` (empty when the entry has no `=`), the value kept raw with no
escape decoding. -/
def tagDecodeRawSpec (block : String) : List (String × String) :=
  (goSplit (goTrimPre block "@") ";").foldl (fun tags entry =>
    match goSplit entry "=" with
    | [] => tags
    | [name] => mapInsert tags name ""
    | name :: vs => mapInsert tags name (goJoin vs "=")) []

/-- The per-entry steps of `V1.parseTags` and `tagDecodeRawSpec` agree. -/
theorem parseTags_step_eq (tags : List (String × String)) (v : String) :
    (match goSplitN v "=" 2 with
     | key :: value :: _ => mapInsert tags key value
     | key :: _ => mapInsert tags key ""
     | [] => tags) =
    (match goSplit v "=" with
     | [] => tags
     | [name] => mapInsert tags name ""
     | name :: vs => mapInsert tags name (goJoin vs "=")) := by
  rcases hp : goSplit v "=" with - | ⟨a, - | ⟨b, - | ⟨c, rest⟩⟩⟩ <;>
    simp [goSplitN, hp, goJoin]

/-- C3 (counterexample): the claim says the tag decoder applies the escape
`\s` → space to every tag value, so that a tag block containing `foo=a\sb`
yields a map sending `foo` to `a b`.  The `message.go` tag decoder
(`parseTags`, the cited code) performs no escape decoding: the stored value
is the raw `a\sb`, both at `parseTags` level and through the full
`parseMessage` pipeline. -/
theorem c3_counterexample :
    mapLookup (V1.parseTags "@foo=a\\sb") "foo" = some "a\\sb" ∧
    mapLookup
      ((V1.parseMessage "@foo=a\\sb :u!u@h.tv PRIVMSG #c :hi").RawMessage.Tags)
      "foo" = some "a\\sb" ∧
    ("a\\sb" : String) ≠ "a b" := by
  refine ⟨by decide, by decide, by decide⟩

/-- C3 (amended): for every tag block, the `message.go` tag decoder strips
the leading `@`, splits entries on `;`, splits each entry on the first `=`
(an entry with no `=` maps to the empty value), and stores every value
raw — no escape decoding is applied; in particular `foo=a\sb` maps to the
literal `a\sb`, and an entry with no `=` maps to the empty value. -/
theorem c3_tag_decoder_raw :
    (∀ block, V1.parseTags block = tagDecodeRawSpec block) ∧
    mapLookup (V1.parseTags "@foo=a\\sb") "foo" = some "a\\sb" ∧
    mapLookup (V1.parseTags "@foo=a\\sb;mod") "mod" = some "" := by
  refine ⟨?_, by decide, by decide⟩
  intro block
  unfold V1.parseTags tagDecodeRawSpec
  congr 1
  funext tags v
  exact parseTags_step_eq tags v

/-- The emote loop decodes exactly one `Emote` per `/`-separated group
whenever it succeeds. -/
theorem parseEmotesLoop_length (runes : List Char) (gs : List String)
    (es : List Emote) (h : V2.parseEmotesLoop runes gs = some es) :
    es.length = gs.length := by
  induction gs generalizing es with
  | nil =>
    unfold V2.parseEmotesLoop at h
    injection h with h
    subst h
    rfl
  | cons v rest ih =>
    unfold V2.parseEmotesLoop at h
    simp only [Option.bind_eq_bind, Option.bind_eq_some, Option.pure_def,
      Option.some.injEq] at h
    obtain ⟨e, -, es', hrest, h⟩ := h
    subst h
    simp [ih es' hrest]

/-- C4: for every non-empty `emotes` tag value and message body, the
decoder (`V2.parseEmotes`, end-inclusive ranges) produces exactly one
`Emote` per `/`-separated group; for each group, the `ID` is the text
before the first `:`, the `Count` is 1 plus the number of additional
`,`-separated ranges, and the `Name` is the codepoint substring of the body
at the group's first `first-last` range; concretely,
`25:0-4,6-10/1902:12-16` against `Kappa Kappa Keepo` decodes to
`Kappa`×2 and `Keepo`×1. -/
theorem c4_emote_decoding :
    (∀ raw body es, raw ≠ "" → V2.parseEmotes raw body = some es →
      es.length = (goSplit raw "/").length) ∧
    (∀ (body g : String) (e : Emote) (id ranges first last : String),
      goSplitN g ":" 2 = [id, ranges] →
      goSplitN ((goSplitN ranges "," 2).headD "") "-" 2 = [first, last] →
      V2.parseEmoteGroup body.data g = some e →
      e.ID = id ∧
      e.Count = (goCount ranges "," : Int) + 1 ∧
      goRuneSlice body.data (goAtoi first) (goAtoi last + 1) =
        some e.Name) ∧
    V2.parseEmotes "25:0-4,6-10/1902:12-16" "Kappa Kappa Keepo" =
      some [{ Name := "Kappa", ID := "25", Count := 2 },
            { Name := "Keepo", ID := "1902", Count := 1 }] := by
  refine ⟨?_, ?_, by decide⟩
  · intro raw body es hraw h
    unfold V2.parseEmotes at h
    rw [if_neg hraw] at h
    exact parseEmotesLoop_length body.data (goSplit raw "/") es h
  · intro body g e id ranges first last h1 h2 h3
    unfold V2.parseEmoteGroup at h3
    rw [h1] at h3
    dsimp only at h3
    rw [h2] at h3
    simp only [Option.bind_eq_bind, Option.bind_eq_some, Option.pure_def,
      Option.some.injEq] at h3
    obtain ⟨name, hname, h3⟩ := h3
    subst h3
    exact ⟨rfl, rfl, hname⟩

/-- Witness for C4 at the concrete tag `25:0-4,6-10/1902:12-16` and body
`Kappa Kappa Keepo`. -/
theorem c4_emote_decoding_witness :
    (([{ Name := "Kappa", ID := "25", Count := 2 },
       { Name := "Keepo", ID := "1902", Count := 1 }] : List Emote).length =
      (goSplit "25:0-4,6-10/1902:12-16" "/").length) ∧
    (({ Name := "Kappa", ID := "25", Count := 2 } : Emote).ID = "25" ∧
     ({ Name := "Kappa", ID := "25", Count := 2 } : Emote).Count =
       (goCount "0-4,6-10" "," : Int) + 1 ∧
     goRuneSlice "Kappa Kappa Keepo".data (goAtoi "0") (goAtoi "4" + 1) =
       some ({ Name := "Kappa", ID := "25", Count := 2 } : Emote).Name) :=
  ⟨c4_emote_decoding.1 "25:0-4,6-10/1902:12-16" "Kappa Kappa Keepo" _
      (by decide) (by decide),
   c4_emote_decoding.2.1 "Kappa Kappa Keepo" "25:0-4,6-10" _ "25" "0-4,6-10"
      "0" "4" (by decide) (by decide) (by decide)⟩

/-- The body a `V2` decoder reads: the second parameter when there are
exactly two, otherwise empty. -/
def v2Body (msg : V2.ircMessage) : String :=
  if msg.Params.length = 2 then msg.Params.getD 1 "" else ""

/-- C5 (counterexample): the claim says every PRIVMSG **or WHISPER** line
whose body starts with `\u0001ACTION` and ends with `\u0001` has both
markers stripped and the action flag set, and that any other body is
returned unchanged with the flag false.  The `V2` whisper decoder violates
both halves: it tests for the substring `/me` instead, so (i) an
ACTION-marked whisper body is returned unchanged with `Action = false`, and
(ii) a `/me hi` whisper body — not of the ACTION shape — gets
`Action = true` and is altered.  (iii) The PRIVMSG decoders also strip 8
leading characters, not the 7-character marker: body `\u0001ACTIONhi\u0001`
yields `i`, not `hi`. -/
theorem c5_counterexample :
    (V2.parseWhisperMessage
      { Raw := ":u!u@h.tv WHISPER target :\u0001ACTION hi\u0001",
        Source := { Username := "u" }, Command := "WHISPER",
        Params := ["target", "\u0001ACTION hi\u0001"], Tags := [] } =
      some (.whisper
        { User := { Name := "u" },
          Raw := ":u!u@h.tv WHISPER target :\u0001ACTION hi\u0001",
          Type' := .WHISPER, RawType := "WHISPER",
          Message := "\u0001ACTION hi\u0001", Target := "target",
          Action := false })) ∧
    (V2.parseWhisperMessage
      { Raw := ":u!u@h.tv WHISPER target :/me hi",
        Source := { Username := "u" }, Command := "WHISPER",
        Params := ["target", "/me hi"], Tags := [] } =
      some (.whisper
        { User := { Name := "u" },
          Raw := ":u!u@h.tv WHISPER target :/me hi",
          Type' := .WHISPER, RawType := "WHISPER",
          Message := " hi", Target := "target",
          Action := true })) ∧
    (V2.parsePrivateMessage
      { Raw := ":u!u@h.tv PRIVMSG #c :\u0001ACTIONhi\u0001",
        Source := { Username := "u" }, Command := "PRIVMSG",
        Params := ["#c", "\u0001ACTIONhi\u0001"], Tags := [] } =
      some (.privmsg
        { User := { Name := "u" },
          Raw := ":u!u@h.tv PRIVMSG #c :\u0001ACTIONhi\u0001",
          Type' := .PRIVMSG, RawType := "PRIVMSG",
          Message := "i", Channel := "c", Action := true })) ∧
    ("i" : String) ≠ "hi" := by
  refine ⟨by decide, by decide, by decide, by decide⟩

/-- Marker handling of `actionStrip` with both markers present (and the
slice in range): the first 8 characters and the last character go. -/
theorem actionStrip_marked (body : String)
    (hm : (goHasPre body "\u0001ACTION" && goHasSuf body "\u0001") = true)
    (hl : 9 ≤ body.data.length) :
    V2.actionStrip body =
      some (String.mk ((body.data.drop 8).dropLast), true) := by
  unfold V2.actionStrip
  rw [if_pos hm, if_pos hl]

/-- `actionStrip` leaves any body without both markers unchanged. -/
theorem actionStrip_unmarked (body : String)
    (hm : (goHasPre body "\u0001ACTION" && goHasSuf body "\u0001") = false) :
    V2.actionStrip body = some (body, false) := by
  unfold V2.actionStrip
  rw [if_neg (by simp [hm])]

/-- Every successful `V2.parsePrivateMessage` result is a `privmsg` record
whose body/action pair is `actionStrip` of the long parameter and whose
emotes were decoded against the pre-strip long parameter. -/
theorem v2_privmsg_fields (msg : V2.ircMessage) (r : V2.Message)
    (h : V2.parsePrivateMessage msg = some r) :
    ∃ pm, r = .privmsg pm ∧
      V2.actionStrip (v2Body msg) = some (pm.Message, pm.Action) ∧
      V2.parseEmotes (mapGetD msg.Tags "emotes" "") (v2Body msg) =
        some pm.Emotes := by
  unfold V2.parsePrivateMessage at h
  simp only [Option.bind_eq_bind, Option.bind_eq_some, Option.pure_def,
    Option.some.injEq] at h
  obtain ⟨u, -, p, -, es, hes, st, hst, h⟩ := h
  subst h
  exact ⟨_, rfl, by simpa [v2Body] using hst, by simpa [v2Body] using hes⟩

/-- Every successful `V2.parseWhisperMessage` result is a `whisper` record
whose action flag is the `/me`-substring test and whose body had only a
leading `/me` trimmed. -/
theorem v2_whisper_fields (msg : V2.ircMessage) (r : V2.Message)
    (h : V2.parseWhisperMessage msg = some r) :
    ∃ wm, r = .whisper wm ∧
      wm.Action = goContains (v2Body msg) "/me" ∧
      wm.Message = (if goContains (v2Body msg) "/me" = true then
        goTrimPre (v2Body msg) "/me" else v2Body msg) := by
  unfold V2.parseWhisperMessage at h
  simp only [Option.bind_eq_bind, Option.bind_eq_some, Option.pure_def,
    Option.some.injEq] at h
  obtain ⟨u, -, t, -, es, -, h⟩ := h
  subst h
  refine ⟨_, rfl, ?_, ?_⟩ <;> unfold v2Body <;>
    rcases hc : goContains (if msg.Params.length = 2 then
      msg.Params.getD 1 "" else "") "/me" <;> simp [hc]

/-- The `V1` user-message sub-decoder: the action flag is the marker test
on the unstripped body, the emotes are decoded against that body. -/
theorem v1_userMessage_fields (m : V1.message) (um : V1.userMessage)
    (h : m.parseUserMessage = some um) :
    um.Action = (goHasPre m.RawMessage.Message "\u0001ACTION" &&
      goHasSuf m.RawMessage.Message "\u0001") ∧
    m.parseEmotes = some um.Emotes := by
  unfold V1.message.parseUserMessage at h
  simp only [Option.bind_eq_bind, Option.bind_eq_some, Option.pure_def,
    Option.some.injEq] at h
  obtain ⟨es, hes, h⟩ := h
  subst h
  exact ⟨rfl, hes⟩

/-- The `V1` PRIVMSG decoder: action flag from the marker test; body
sliced by `actionSlice` exactly when the flag is set; emotes from the
unstripped body. -/
theorem v1_privmsg_fields (m : V1.message) (u : User)
    (pm : V1.PRIVMSGMessage) (h : m.parsePRIVMSGMessage = some (u, pm)) :
    pm.Action = (goHasPre m.RawMessage.Message "\u0001ACTION" &&
      goHasSuf m.RawMessage.Message "\u0001") ∧
    (if pm.Action then V1.actionSlice m.RawMessage.Message
     else some m.RawMessage.Message) = some pm.Message ∧
    m.parseEmotes = some pm.Emotes := by
  unfold V1.message.parsePRIVMSGMessage at h
  simp only [Option.bind_eq_bind, Option.bind_eq_some, Option.pure_def,
    Option.some.injEq, Prod.mk.injEq] at h
  obtain ⟨um, hum, h⟩ := h
  obtain ⟨hA, hE⟩ := v1_userMessage_fields m um hum
  rcases hAct : um.Action with - | -
  · rw [hAct] at h hA
    simp only [Bool.false_eq_true, if_false, Option.some_bind,
      Option.some.injEq, Prod.mk.injEq] at h
    obtain ⟨-, h⟩ := h
    subst h
    exact ⟨hA, by simp [← hA, V1.message.parseChatMessage], hE⟩
  · rw [hAct] at h hA
    simp only [if_true, Option.bind_eq_some, Option.some.injEq,
      Prod.mk.injEq] at h
    obtain ⟨text, htext, -, h⟩ := h
    subst h
    refine ⟨hA, ?_, hE⟩
    simpa [← hA, V1.message.parseChatMessage] using htext

/-- The `V1` WHISPER decoder: same marker handling as PRIVMSG. -/
theorem v1_whisper_fields (m : V1.message) (u : User)
    (wm : V1.WHISPERMessage) (h : m.parseWHISPERMessage = some (u, wm)) :
    wm.Action = (goHasPre m.RawMessage.Message "\u0001ACTION" &&
      goHasSuf m.RawMessage.Message "\u0001") ∧
    (if wm.Action then V1.actionSlice m.RawMessage.Message
     else some m.RawMessage.Message) = some wm.Message ∧
    m.parseEmotes = some wm.Emotes := by
  unfold V1.message.parseWHISPERMessage at h
  simp only [Option.bind_eq_bind, Option.bind_eq_some, Option.pure_def,
    Option.some.injEq, Prod.mk.injEq] at h
  obtain ⟨um, hum, h⟩ := h
  obtain ⟨hA, hE⟩ := v1_userMessage_fields m um hum
  rcases hAct : um.Action with - | -
  · rw [hAct] at h hA
    simp only [Bool.false_eq_true, if_false, Option.some_bind,
      Option.some.injEq, Prod.mk.injEq] at h
    obtain ⟨-, h⟩ := h
    subst h
    exact ⟨hA, by simp [← hA], hE⟩
  · rw [hAct] at h hA
    simp only [if_true, Option.bind_eq_some, Option.some.injEq,
      Prod.mk.injEq] at h
    obtain ⟨text, htext, -, h⟩ := h
    subst h
    refine ⟨hA, ?_, hE⟩
    simpa [← hA] using htext

/-- C5 (amended): for every PRIVMSG line of either pipeline, and every
`message.go` WHISPER line, whose body starts with `\u0001ACTION`, ends with
`\u0001` and is at least 9 characters long, the produced record's body is
the input body with its first 8 characters (the 7-character marker plus the
following character, normally the separating space) and its final character
removed, and the action flag is set; a body without both markers is
returned unchanged with the flag false.  The `V2` WHISPER decoder instead
sets the flag iff the body contains the substring `/me` and only trims a
leading `/me`. -/
theorem c5_action_stripping :
    (∀ body,
      (goHasPre body "\u0001ACTION" && goHasSuf body "\u0001") = true →
      9 ≤ body.data.length →
      V2.actionStrip body =
        some (String.mk ((body.data.drop 8).dropLast), true)) ∧
    (∀ body,
      (goHasPre body "\u0001ACTION" && goHasSuf body "\u0001") = false →
      V2.actionStrip body = some (body, false)) ∧
    (∀ msg r, V2.parsePrivateMessage msg = some r → ∃ pm, r = .privmsg pm ∧
      V2.actionStrip (v2Body msg) = some (pm.Message, pm.Action)) ∧
    (∀ msg r, V2.parseWhisperMessage msg = some r → ∃ wm, r = .whisper wm ∧
      wm.Action = goContains (v2Body msg) "/me" ∧
      wm.Message = (if goContains (v2Body msg) "/me" = true then
        goTrimPre (v2Body msg) "/me" else v2Body msg)) ∧
    (∀ m u pm, V1.message.parsePRIVMSGMessage m = some (u, pm) →
      pm.Action = (goHasPre m.RawMessage.Message "\u0001ACTION" &&
        goHasSuf m.RawMessage.Message "\u0001") ∧
      (if pm.Action then V1.actionSlice m.RawMessage.Message
       else some m.RawMessage.Message) = some pm.Message) ∧
    (∀ m u wm, V1.message.parseWHISPERMessage m = some (u, wm) →
      wm.Action = (goHasPre m.RawMessage.Message "\u0001ACTION" &&
        goHasSuf m.RawMessage.Message "\u0001") ∧
      (if wm.Action then V1.actionSlice m.RawMessage.Message
       else some m.RawMessage.Message) = some wm.Message) := by
  refine ⟨actionStrip_marked, actionStrip_unmarked, ?_, ?_, ?_, ?_⟩
  · intro msg r h
    obtain ⟨pm, hr, hstrip, -⟩ := v2_privmsg_fields msg r h
    exact ⟨pm, hr, hstrip⟩
  · exact v2_whisper_fields
  · intro m u pm h
    obtain ⟨hA, hM, -⟩ := v1_privmsg_fields m u pm h
    exact ⟨hA, hM⟩
  · intro m u wm h
    obtain ⟨hA, hM, -⟩ := v1_whisper_fields m u wm h
    exact ⟨hA, hM⟩

/-- Witness for C5 at the marked body `\u0001ACTION hi\u0001` and a
concrete `V2` PRIVMSG line carrying it. -/
theorem c5_action_stripping_witness :
    V2.actionStrip "\u0001ACTION hi\u0001" =
      some (String.mk (("\u0001ACTION hi\u0001".data.drop 8).dropLast),
        true) ∧
    (∃ pm, (V2.Message.privmsg
        { User := {}, Type' := .PRIVMSG, RawType := "PRIVMSG",
          Message := "hi", Channel := "c", Action := true }) =
        .privmsg pm ∧
      V2.actionStrip (v2Body
        { Command := "PRIVMSG",
          Params := ["#c", "\u0001ACTION hi\u0001"] }) =
        some (pm.Message, pm.Action)) :=
  ⟨c5_action_stripping.1 "\u0001ACTION hi\u0001" (by decide) (by decide),
   c5_action_stripping.2.2.1
     { Command := "PRIVMSG", Params := ["#c", "\u0001ACTION hi\u0001"] } _
     (by decide)⟩

/-! ## Association-list lemmas for the Go map model -/

/-- `find?` by key on a key-filtered list: every entry with key `k` passes
or fails the filter together, so the first survivor with key `k` is the
first entry with key `k`. -/
theorem find_key_filter {α : Type} (p : String → Bool) (l : List (String × α))
    (k : String) :
    ((l.filter fun kv => p kv.1).find? fun kv => kv.1 == k) =
      (if p k then l.find? fun kv => kv.1 == k else none) := by
  induction l with
  | nil => simp
  | cons kv rest ih =>
    by_cases hk : kv.1 = k
    · subst hk
      by_cases hp : p kv.1 <;> simp [hp, ih, List.find?]
    · by_cases hp : p kv.1 <;>
        simp [hp, ih, List.find?, show (kv.1 == k) = false by simp [hk]]

/-- `find?` by key through a key-preserving value map. -/
theorem find_key_map {α β : Type} (f : String → α → β)
    (l : List (String × α)) (k : String) :
    ((l.map fun kv => (kv.1, f kv.1 kv.2)).find? fun kv => kv.1 == k) =
      (l.find? fun kv => kv.1 == k).map fun kv => (kv.1, f kv.1 kv.2) := by
  induction l with
  | nil => simp
  | cons kv rest ih =>
    by_cases hk : kv.1 = k
    · simp [List.find?, hk]
    · simp [List.find?, ih, show (kv.1 == k) = false by simp [hk]]

/-- Lookup after a Go-map insert. -/
theorem mapLookup_insert {α : Type} (m : List (String × α)) (k k' : String)
    (v : α) :
    mapLookup (mapInsert m k v) k' =
      if k' = k then some v else mapLookup m k' := by
  unfold mapInsert mapLookup
  rw [List.find?_append]
  by_cases hk : k' = k
  · subst hk
    have : ((m.filter fun p => p.1 != k').find? fun kv => kv.1 == k') =
        none := by
      simp [find_key_filter (fun x => x != k') m k']
    simp [this]
  · have : ((m.filter fun p => p.1 != k).find? fun kv => kv.1 == k') =
        (m.find? fun kv => kv.1 == k') := by
      simpa [show (k' != k) = true by simp [hk]] using
        find_key_filter (fun x => x != k) m k'
    rw [this]
    rcases hf : m.find? fun kv => kv.1 == k' with - | found
    · simp [hk, Ne.symm hk]
    · simp [hf, hk]

/-- A key absent from an association list is untouched by the insert's
filter. -/
theorem filter_eq_of_fresh {α : Type} (acc : List (String × α)) (k : String)
    (hfresh : ∀ q ∈ acc, q.1 ≠ k) :
    (acc.filter fun p => p.1 != k) = acc := by
  apply List.filter_eq_self.mpr
  intro q hq
  simpa using hfresh q hq

/-- A fold of key-conditional Go-map inserts over entries with fresh,
pairwise-distinct keys appends exactly the filtered, value-mapped
entries. -/
theorem foldl_insert_fresh {α : Type} (p : String → Bool)
    (f : String → String → α) (tags : List (String × String)) :
    ∀ acc : List (String × α),
      (∀ kv ∈ tags, ∀ q ∈ acc, q.1 ≠ kv.1) →
      (tags.map Prod.fst).Nodup →
      tags.foldl (fun acc kv =>
        if p kv.1 then mapInsert acc kv.1 (f kv.1 kv.2) else acc) acc =
      acc ++ (tags.filter fun kv => p kv.1).map
        (fun kv => (kv.1, f kv.1 kv.2)) := by
  induction tags with
  | nil => intro acc _ _; simp
  | cons kv rest ih =>
    intro acc hfresh hnodup
    simp only [List.map_cons, List.nodup_cons, List.mem_map] at hnodup
    simp only [List.foldl_cons]
    by_cases hp : p kv.1
    · rw [if_pos hp]
      have hins : mapInsert acc kv.1 (f kv.1 kv.2) =
          acc ++ [(kv.1, f kv.1 kv.2)] := by
        unfold mapInsert
        rw [filter_eq_of_fresh acc kv.1
          (fun q hq => hfresh kv (by simp) q hq)]
      rw [hins, ih (acc ++ [(kv.1, f kv.1 kv.2)]) ?_ hnodup.2]
      · simp [List.filter_cons, hp]
      · intro kv' hkv' q hq
        rcases List.mem_append.mp hq with hq | hq
        · exact hfresh kv' (by simp [hkv']) q hq
        · simp only [List.mem_singleton] at hq
          subst hq
          intro hEq
          exact hnodup.1 ⟨kv', hkv', hEq.symm⟩
    · rw [if_neg hp, ih acc (fun kv' h q hq => hfresh kv' (by simp [h]) q hq)
        hnodup.2]
      simp [List.filter_cons, hp]

/-- Lookup in the copy stage of `parseMsgParams`: a `msg-param` key maps to
its space-unescaped string value, anything else is absent. -/
theorem msgParamCopy_lookup (tags : List (String × String))
    (hnodup : (tags.map Prod.fst).Nodup) (k : String) :
    mapLookup (tags.foldl (fun acc p =>
      if goContains p.1 "msg-param" then
        mapInsert acc p.1 (V1.MsgParamValue.str (goReplaceAll p.2 "\\s" " "))
      else acc) []) k =
    (if goContains k "msg-param" = true then
      (mapLookup tags k).map
        (fun v => V1.MsgParamValue.str (goReplaceAll v "\\s" " "))
     else none) := by
  rw [foldl_insert_fresh (fun x => goContains x "msg-param")
    (fun _ v => V1.MsgParamValue.str (goReplaceAll v "\\s" " ")) tags []
    (by simp) hnodup]
  unfold mapLookup
  rw [List.nil_append,
    find_key_map (fun _ v => V1.MsgParamValue.str (goReplaceAll v "\\s" " ")),
    find_key_filter (fun x => goContains x "msg-param")]
  by_cases hc : goContains k "msg-param" = true
  · rw [if_pos hc, if_pos hc]
    rcases hf : tags.find? fun kv => kv.1 == k with - | kv
    · simp [hf]
    · have hk : kv.1 = k := by simpa using List.find?_some hf
      simp [hf, hk]
  · rw [if_neg hc, if_neg hc]
    simp

/-- Lookup after a `paramToInt` pass: only the pass's own key changes, a
string value there becoming `Atoi` of the string. -/
theorem paramToInt_lookup (m m' : List (String × V1.MsgParamValue))
    (tag : String) (h : V1.paramToInt m tag = some m') (k : String) :
    mapLookup m' k =
      if k = tag then
        (mapLookup m tag).map (fun v =>
          match v with
          | .str s => V1.MsgParamValue.int (goAtoi s)
          | v => v)
      else mapLookup m k := by
  unfold V1.paramToInt at h
  rcases hm : mapLookup m tag with - | v
  · rw [hm] at h
    injection h with h
    subst h
    by_cases hk : k = tag
    · subst hk; simp [hm]
    · simp [hk]
  · rw [hm] at h
    rcases v with s | i | b
    · injection h with h
      subst h
      by_cases hk : k = tag
      · subst hk; rw [mapLookup_insert]; simp [hm]
      · rw [mapLookup_insert]; simp [hk]
    · exact absurd h (by simp)
    · exact absurd h (by simp)

/-- Lookup after the `paramToBool` pass: only the pass's own key changes,
a string value there becoming the boolean `value == "1"`. -/
theorem paramToBool_lookup (m m' : List (String × V1.MsgParamValue))
    (tag : String) (h : V1.paramToBool m tag = some m') (k : String) :
    mapLookup m' k =
      if k = tag then
        (mapLookup m tag).map (fun v =>
          match v with
          | .str s => V1.MsgParamValue.boolean (s == "1")
          | v => v)
      else mapLookup m k := by
  unfold V1.paramToBool at h
  rcases hm : mapLookup m tag with - | v
  · rw [hm] at h
    injection h with h
    subst h
    by_cases hk : k = tag
    · subst hk; simp [hm]
    · simp [hk]
  · rw [hm] at h
    rcases v with s | i | b
    · injection h with h
      subst h
      by_cases hk : k = tag
      · subst hk; rw [mapLookup_insert]; simp [hm]
      · rw [mapLookup_insert]; simp [hk]
    · exact absurd h (by simp)
    · exact absurd h (by simp)

/-- The per-key coercion C6 describes for the USERNOTICE parameter bag:
the four month/viewer-count keys parse as integers, the streak-share key
becomes the boolean `value == "1"`, every other key keeps its string. -/
def msgParamCoerce (k v : String) : V1.MsgParamValue :=
  if k = "msg-param-cumulative-months" ∨ k = "msg-param-months" ∨
      k = "msg-param-streak-months" ∨ k = "msg-param-viewerCount" then
    .int (goAtoi v)
  else if k = "msg-param-should-share-streak" then .boolean (v == "1")
  else .str v

/-- C6: for every USERNOTICE line, every tag whose name contains
`msg-param` is copied into the parameter bag with each `\s` in its value
replaced by a space; the four keys `msg-param-cumulative-months`,
`msg-param-months`, `msg-param-streak-months` and `msg-param-viewerCount`
are coerced to integers, `msg-param-should-share-streak` to the boolean
`value == "1"`, and every other copied key keeps its string value; keys not
containing `msg-param` are absent from the bag. -/
theorem c6_usernotice_param_bag :
    (∀ tags bag, (tags.map Prod.fst).Nodup →
      V1.parseMsgParams tags = some bag →
      ∀ k, mapLookup bag k =
        (if goContains k "msg-param" = true then
          (mapLookup tags k).map
            (fun v => msgParamCoerce k (goReplaceAll v "\\s" " "))
         else none)) ∧
    (∀ m u un, V1.message.parseUSERNOTICEMessage m = some (u, un) →
      V1.parseMsgParams m.RawMessage.Tags = some un.MsgParams) := by
  constructor
  · intro tags bag hnodup h k
    unfold V1.parseMsgParams at h
    simp only [Option.bind_eq_bind, Option.bind_eq_some, Option.pure_def,
      Option.some.injEq] at h
    obtain ⟨m1, h1, m2, h2, m3, h3, m4, h4, m5, h5, hbag⟩ := h
    subst hbag
    have L0 := msgParamCopy_lookup tags hnodup
    have L1 := paramToInt_lookup _ _ _ h1
    have L2 := paramToInt_lookup _ _ _ h2
    have L3 := paramToBool_lookup _ _ _ h3
    have L4 := paramToInt_lookup _ _ _ h4
    have L5 := paramToInt_lookup _ _ _ h5
    by_cases e1 : k = "msg-param-cumulative-months"
    · subst e1
      have hc : goContains "msg-param-cumulative-months" "msg-param" =
          true := by decide
      rw [L5, if_neg (by decide), L4, if_neg (by decide), L3,
        if_neg (by decide), L2, if_neg (by decide), L1, if_pos rfl, L0,
        if_pos hc, if_pos hc]
      rcases hx : mapLookup tags "msg-param-cumulative-months" with - | v <;>
        simp [hx, msgParamCoerce]
    · by_cases e2 : k = "msg-param-months"
      · subst e2
        have hc : goContains "msg-param-months" "msg-param" = true := by
          decide
        rw [L5, if_neg (by decide), L4, if_neg (by decide), L3,
          if_neg (by decide), L2, if_pos rfl, L1, if_neg (by decide), L0,
          if_pos hc, if_pos hc]
        rcases hx : mapLookup tags "msg-param-months" with - | v <;>
          simp [hx, msgParamCoerce]
      · by_cases e3 : k = "msg-param-should-share-streak"
        · subst e3
          have hc : goContains "msg-param-should-share-streak" "msg-param" =
              true := by decide
          rw [L5, if_neg (by decide), L4, if_neg (by decide), L3,
            if_pos rfl, L2, if_neg (by decide), L1, if_neg (by decide), L0,
            if_pos hc, if_pos hc]
          rcases hx : mapLookup tags "msg-param-should-share-streak"
              with - | v <;>
            simp [hx, msgParamCoerce]
        · by_cases e4 : k = "msg-param-streak-months"
          · subst e4
            have hc : goContains "msg-param-streak-months" "msg-param" =
                true := by decide
            rw [L5, if_neg (by decide), L4, if_pos rfl, L3,
              if_neg (by decide), L2, if_neg (by decide), L1,
              if_neg (by decide), L0, if_pos hc, if_pos hc]
            rcases hx : mapLookup tags "msg-param-streak-months"
                with - | v <;>
              simp [hx, msgParamCoerce]
          · by_cases e5 : k = "msg-param-viewerCount"
            · subst e5
              have hc : goContains "msg-param-viewerCount" "msg-param" =
                  true := by decide
              rw [L5, if_pos rfl, L4, if_neg (by decide), L3,
                if_neg (by decide), L2, if_neg (by decide), L1,
                if_neg (by decide), L0, if_pos hc, if_pos hc]
              rcases hx : mapLookup tags "msg-param-viewerCount"
                  with - | v <;>
                simp [hx, msgParamCoerce]
            · rw [L5, if_neg e5, L4, if_neg e4, L3, if_neg e3, L2,
                if_neg e2, L1, if_neg e1, L0]
              by_cases hc : goContains k "msg-param" = true
              · rw [if_pos hc, if_pos hc]
                rcases hx : mapLookup tags k with - | v <;>
                  simp [hx, msgParamCoerce, e1, e2, e3, e4, e5]
              · rw [if_neg hc, if_neg hc]
  · intro m u un h
    unfold V1.message.parseUSERNOTICEMessage at h
    simp only [Option.bind_eq_bind, Option.bind_eq_some, Option.pure_def,
      Option.some.injEq, Prod.mk.injEq] at h
    obtain ⟨um, -, mp, hmp, -, hun⟩ := h
    subst hun
    exact hmp

/-- Witness for C6 at the tag map
`[(msg-param-months, 3), (color, red)]` and key `msg-param-months`. -/
theorem c6_usernotice_param_bag_witness :
    mapLookup [("msg-param-months", V1.MsgParamValue.int 3)]
      "msg-param-months" =
    (if goContains "msg-param-months" "msg-param" = true then
      (mapLookup [("msg-param-months", "3"), ("color", "red")]
        "msg-param-months").map
        (fun v => msgParamCoerce "msg-param-months"
          (goReplaceAll v "\\s" " "))
     else none) :=
  c6_usernotice_param_bag.1 [("msg-param-months", "3"), ("color", "red")] _
    (by decide) (by decide) "msg-param-months"

/-- C7: for every 353 line with exactly 4 parameters, the decoded Names
record's channel is the 3rd parameter with a leading `#` stripped and its
user list is the 4th parameter split on spaces; with fewer parameters the
record has an empty channel and an empty user list, and no error is
raised. -/
theorem c7_names_decoding :
    (∀ msg : V2.ircMessage, msg.Params.length = 4 →
      V2.parseNamesMessage msg = some (.names
        { Raw := msg.Raw, Type' := V2.parseMessageType msg.Command,
          RawType := msg.Command,
          Channel := goTrimPre (msg.Params.getD 2 "") "#",
          Users := goSplit (msg.Params.getD 3 "") " " })) ∧
    (∀ msg : V2.ircMessage, msg.Params.length < 4 →
      V2.parseNamesMessage msg = some (.names
        { Raw := msg.Raw, Type' := V2.parseMessageType msg.Command,
          RawType := msg.Command, Channel := "", Users := [] })) := by
  constructor
  · intro msg h
    simp [V2.parseNamesMessage, h]
  · intro msg h
    have hne : ¬ msg.Params.length = 4 := by omega
    simp [V2.parseNamesMessage, hne]

/-- Witness for C7 at a well-formed 4-parameter 353 line and a truncated
1-parameter one. -/
theorem c7_names_decoding_witness :
    V2.parseNamesMessage
      { Raw := "r4", Command := "353",
        Params := ["justinfan", "=", "#pajlada", "a b c"] } =
      some (.names
        { Raw := "r4", Type' := .NAMES, RawType := "353",
          Channel := "pajlada", Users := ["a", "b", "c"] }) ∧
    V2.parseNamesMessage
      { Raw := "r1", Command := "353", Params := ["justinfan"] } =
      some (.names
        { Raw := "r1", Type' := .NAMES, RawType := "353", Channel := "",
          Users := [] }) := by
  constructor
  · rw [c7_names_decoding.1
      { Raw := "r4", Command := "353",
        Params := ["justinfan", "=", "#pajlada", "a b c"] } (by decide)]
    decide
  · rw [c7_names_decoding.2
      { Raw := "r1", Command := "353", Params := ["justinfan"] }
      (by decide)]
    decide

/-- The badge decoding C8 describes, written from the claim's words: one
map entry per pair containing a `/` — the name before the first `/` mapped
to the level after it parsed as an integer, non-numeric degrading to 0 —
and every pair missing the `/level` half skipped. -/
def badgesSpec (raw : String) : List (String × Int) :=
  (goSplit raw ",").foldl (fun badges v =>
    match goSplit v "/" with
    | [] => badges
    | [_] => badges
    | name :: ls => mapInsert badges name (goAtoi (goJoin ls "/"))) []

/-- The per-pair steps of `V1.parseBadgesList` and `badgesSpec` agree. -/
theorem parseBadges_step_eq (badges : List (String × Int)) (v : String) :
    (match goSplitN v "/" 2 with
     | key :: level :: _ => mapInsert badges key (goAtoi level)
     | _ => badges) =
    (match goSplit v "/" with
     | [] => badges
     | [_] => badges
     | name :: ls => mapInsert badges name (goAtoi (goJoin ls "/"))) := by
  rcases hp : goSplit v "/" with - | ⟨a, - | ⟨b, - | ⟨c, rest⟩⟩⟩ <;>
    simp [goSplitN, hp, goJoin]

/-- C8: for every badges tag value, decoding produces one map entry per
well-formed `name/level` pair (level `Atoi`-parsed, non-numeric degrading
to 0), and every pair missing the `/level` half is skipped rather than
failing the decode — the `message.go` decoder; a missing badges tag yields
the empty map. -/
theorem c8_badge_decoding :
    (∀ raw, V1.parseBadgesList raw = badgesSpec raw) ∧
    (∀ m, V1.message.parseBadges m =
      (match mapLookup m.RawMessage.Tags "badges" with
       | none => []
       | some raw => badgesSpec raw)) ∧
    V1.parseBadgesList "subscriber/6,premium,bits/x" =
      [("subscriber", 6), ("bits", 0)] := by
  have hEq : ∀ raw, V1.parseBadgesList raw = badgesSpec raw := by
    intro raw
    unfold V1.parseBadgesList badgesSpec
    congr 1
    funext badges v
    exact parseBadges_step_eq badges v
  refine ⟨hEq, ?_, by decide⟩
  intro m
  unfold V1.message.parseBadges
  rcases mapLookup m.RawMessage.Tags "badges" with - | raw
  · rfl
  · exact hEq raw

/-- C9 (counterexample): the claim says untagged lines still resolve
through the dispatch table, PING and PONG lines in particular decoding to
the Ping/Pong kinds rather than Unset.  `message.go`'s `parseMessage` (the
cited code) returns an `UNSET` record with the whole line as the message
for *every* line not beginning with `@`, including `PING`/`PONG`. -/
theorem c9_counterexample :
    (V1.parseMessage "PING :tmi.twitch.tv").RawMessage.Type' = .UNSET ∧
    (V1.parseMessage "PING :tmi.twitch.tv").RawMessage.Message =
      "PING :tmi.twitch.tv" ∧
    (V1.parseMessage "PONG a :b").RawMessage.Type' = .UNSET ∧
    MessageType.UNSET ≠ .PING ∧ MessageType.UNSET ≠ .PONG := by
  refine ⟨by decide, by decide, by decide, by decide, by decide⟩

/-- C9 (amended): in the `V2` pipeline an untagged line still resolves
through the dispatch table — untagged PING and PONG lines decode to the
Ping/Pong kinds with their payloads; in the `message.go` pipeline, every
line not beginning with `@` is returned whole as a raw `UNSET` record (tags
empty, the entire line as the message) without consulting the dispatch
switch. -/
theorem c9_untagged_lines :
    (∀ line, goHasPre line "@" = false →
      V1.parseMessage line =
        { RawMessage := { Type' := .UNSET, Raw := line, Message := line } }) ∧
    V2.ParseMessage "PING :tmi.twitch.tv" = some (.ping
      { Raw := "PING :tmi.twitch.tv", Type' := .PING, RawType := "PING",
        Message := "tmi.twitch.tv" }) ∧
    V2.ParseMessage "PONG a :b" = some (.pong
      { Raw := "PONG a :b", Type' := .PONG, RawType := "PONG",
        Message := "b" }) := by
  refine ⟨?_, by decide, by decide⟩
  intro line h
  simp [V1.parseMessage, h]

/-- Witness for C9 at the untagged keep-alive line. -/
theorem c9_untagged_lines_witness :
    V1.parseMessage "PING :tmi.twitch.tv" =
      { RawMessage :=
          { Type' := .UNSET, Raw := "PING :tmi.twitch.tv",
            Message := "PING :tmi.twitch.tv" } } :=
  c9_untagged_lines.1 "PING :tmi.twitch.tv" (by decide)

/-- C10: for every PRIVMSG whose body is ACTION-wrapped and which carries
an emotes tag, emote spans are resolved against the body *before* the
ACTION markers are stripped, in both pipelines; so the emotes of the
produced record are those of the unstripped body even though the record's
message text is the stripped body.  Concretely, the span `8-12` in
`\u0001ACTION Kappa\u0001` names `Kappa` while the record's text is the
stripped `Kappa`. -/
theorem c10_emotes_prestrip :
    (∀ msg r, V2.parsePrivateMessage msg = some r → ∃ pm, r = .privmsg pm ∧
      V2.parseEmotes (mapGetD msg.Tags "emotes" "") (v2Body msg) =
        some pm.Emotes ∧
      V2.actionStrip (v2Body msg) = some (pm.Message, pm.Action)) ∧
    (∀ m u pm, V1.message.parsePRIVMSGMessage m = some (u, pm) →
      m.parseEmotes = some pm.Emotes ∧
      (if pm.Action then V1.actionSlice m.RawMessage.Message
       else some m.RawMessage.Message) = some pm.Message) ∧
    V2.parsePrivateMessage
      { Command := "PRIVMSG", Params := ["#c", "\u0001ACTION Kappa\u0001"],
        Tags := [("emotes", "25:8-12")] } =
      some (.privmsg
        { User := {}, Type' := .PRIVMSG, RawType := "PRIVMSG",
          Tags := [("emotes", "25:8-12")], Message := "Kappa",
          Channel := "c",
          Emotes := [{ Name := "Kappa", ID := "25", Count := 1 }],
          Action := true }) := by
  refine ⟨?_, ?_, by decide⟩
  · intro msg r h
    obtain ⟨pm, hr, hstrip, hemotes⟩ := v2_privmsg_fields msg r h
    exact ⟨pm, hr, hemotes, hstrip⟩
  · intro m u pm h
    obtain ⟨-, hM, hE⟩ := v1_privmsg_fields m u pm h
    exact ⟨hE, hM⟩

/-- Witness for C10 at the concrete ACTION-wrapped PRIVMSG with an emote
span over the unstripped body. -/
theorem c10_emotes_prestrip_witness :
    ∃ pm, (V2.Message.privmsg
      { User := {}, Type' := .PRIVMSG, RawType := "PRIVMSG",
        Tags := [("emotes", "25:8-12")], Message := "Kappa",
        Channel := "c",
        Emotes := [{ Name := "Kappa", ID := "25", Count := 1 }],
        Action := true }) = .privmsg pm ∧
      V2.parseEmotes
        (mapGetD ([("emotes", "25:8-12")] : List (String × String))
          "emotes" "")
        (v2Body
          { Command := "PRIVMSG",
            Params := ["#c", "\u0001ACTION Kappa\u0001"],
            Tags := [("emotes", "25:8-12")] }) = some pm.Emotes ∧
      V2.actionStrip
        (v2Body
          { Command := "PRIVMSG",
            Params := ["#c", "\u0001ACTION Kappa\u0001"],
            Tags := [("emotes", "25:8-12")] }) =
        some (pm.Message, pm.Action) :=
  c10_emotes_prestrip.1
    { Command := "PRIVMSG", Params := ["#c", "\u0001ACTION Kappa\u0001"],
      Tags := [("emotes", "25:8-12")] } _ (by decide)

/-! Sanity checks of the embedding against the repository's own test lines
(`client_test.go`): the tagged PRIVMSG line decodes in both pipelines to
the expected channel, user and text, and the ROOMSTATE test line keeps its
`slow` tag. -/

example :
    (V1.parseMessage "@badges=subscriber/6,premium/1;color=#FF0000;display-name=Redflamingo13;emotes=;mod=0;room-id=11148817;subscriber=1;turbo=0;user-id=78424343;user-type= :redflamingo13!redflamingo13@redflamingo13.tmi.twitch.tv PRIVMSG #pajlada :Thrashh5, FeelsWayTooAmazingMan kinda").RawMessage.Message =
      "Thrashh5, FeelsWayTooAmazingMan kinda" ∧
    (V1.parseMessage "@badges=subscriber/6,premium/1;color=#FF0000;display-name=Redflamingo13;emotes=;mod=0;room-id=11148817;subscriber=1;turbo=0;user-id=78424343;user-type= :redflamingo13!redflamingo13@redflamingo13.tmi.twitch.tv PRIVMSG #pajlada :Thrashh5, FeelsWayTooAmazingMan kinda").Channel =
      "pajlada" ∧
    (V1.parseMessage "@badges=subscriber/6,premium/1;color=#FF0000;display-name=Redflamingo13;emotes=;mod=0;room-id=11148817;subscriber=1;turbo=0;user-id=78424343;user-type= :redflamingo13!redflamingo13@redflamingo13.tmi.twitch.tv PRIVMSG #pajlada :Thrashh5, FeelsWayTooAmazingMan kinda").Username =
      "redflamingo13" ∧
    (V1.parseMessage "@badges=subscriber/6,premium/1;color=#FF0000;display-name=Redflamingo13;emotes=;mod=0;room-id=11148817;subscriber=1;turbo=0;user-id=78424343;user-type= :redflamingo13!redflamingo13@redflamingo13.tmi.twitch.tv PRIVMSG #pajlada :Thrashh5, FeelsWayTooAmazingMan kinda").RawMessage.Type' =
      .PRIVMSG := by
  refine ⟨by decide, by decide, by decide, by decide⟩

example :
    ((V2.ParseMessage "@badges=subscriber/6,premium/1;color=#FF0000;display-name=Redflamingo13;user-id=78424343 :redflamingo13!redflamingo13@redflamingo13.tmi.twitch.tv PRIVMSG #pajlada :Thrashh5, FeelsWayTooAmazingMan kinda").map
      (fun m =>
        match m with
        | .privmsg pm =>
          pm.Message == "Thrashh5, FeelsWayTooAmazingMan kinda" &&
          pm.Channel == "pajlada" &&
          pm.User.Name == "redflamingo13" &&
          pm.User.Badges == [("subscriber", 6), ("premium", 1)] &&
          pm.Action == false
        | _ => false)) = some true := by decide

example :
    ((V2.ParseMessage "@slow=10 :tmi.twitch.tv ROOMSTATE #gempir").map
      (fun m =>
        match m with
        | .roomstate rm =>
          rm.Channel == "gempir" && rm.State == [("slow", 10)] &&
          rm.Type' == .ROOMSTATE
        | _ => false)) = some true := by decide
